import Mathlib

/-!
Shallow embedding of the F1 strategy simulation/optimization engine
(`strategy_engine.py`, with the static registry from `data_prep.py`).

Conventions of the embedding:
* Python floats are modelled as exact rationals (`ℚ`); the float literals
  `0.3`, `1.1`, `0.03`, ... become the corresponding rationals.
* Python dicts are modelled as association lists with first-match lookup;
  insertion of a fresh key appends at the end (dict insertion order).
* The in-place mutation of the module-level `deg_models` dict performed by
  `simulate_strategy` (team-fallback insertion under a present track) is made
  explicit: every stateful function returns the post-call table as the second
  component of its result.
* Exceptions are modelled with `Except`: `ValueError` for the lap-sum check
  becomes `SimError.invalidPlan`, a failing dict lookup becomes
  `SimError.keyError`, and `ZeroDivisionError` (zero-lap stint) becomes
  `SimError.divZero`.
-/

/-- Tire compounds (`COMPOUNDS` in `data_prep.py`). -/
inductive Compound where
  | SOFT
  | MEDIUM
  | HARD
  | INTERMEDIATE
deriving DecidableEq, Repr

/-- One fitted degradation entry: `{'base': ..., 'slope': ...}`. -/
structure DegEntry where
  base : ℚ
  slope : ℚ
deriving DecidableEq, Repr

/-- Per-team dict `compound -> entry`. -/
abbrev TeamData := List (Compound × DegEntry)

/-- Per-track dict `team -> TeamData`. -/
abbrev TrackData := List (String × TeamData)

/-- The degradation table `deg_models : track -> team -> compound -> entry`. -/
abbrev DegTable := List (String × TrackData)

/-- A stint plan: ordered `(compound, lap count)` pairs; lap counts are Python
ints, hence `ℤ`. -/
abbrev Plan := List (Compound × ℤ)

/-- Weather record `{'track_temp': ..., 'rain_prob': ...}`. -/
structure Weather where
  track_temp : ℚ
  rain_prob : ℚ
deriving DecidableEq, Repr

/-- Exceptions that `simulate_strategy` can raise. -/
inductive SimError where
  | invalidPlan
  | keyError
  | divZero
deriving DecidableEq, Repr

/-- The analytics dict returned by `simulate_strategy`. -/
structure Analytics where
  stint_times : List ℚ
  deg_penalties : List ℚ
  avg_lap_times : List ℚ
  cum_times : List ℚ
  total_time : ℚ
deriving DecidableEq, Repr

/-- The dry-compound iteration list `['SOFT', 'MEDIUM', 'HARD']` used by both
fallback loops in `simulate_strategy`. -/
def dryCompounds : List Compound := [.SOFT, .MEDIUM, .HARD]

/-- All entries for compound `c` among the teams of one track, in team order
(the inner collection loop of the fallback code). -/
def trackEntries (td : TrackData) (c : Compound) : List DegEntry :=
  td.filterMap (fun p => p.2.lookup c)

/-- All entries for compound `c` across the whole table (the track-absent
fallback's collection loops, lines 78-83). -/
def globalEntries (tbl : DegTable) (c : Compound) : List DegEntry :=
  (tbl.map (fun p => trackEntries p.2 c)).flatten

/-- `np.mean` over the collected bases and slopes of a list of entries. -/
def meanEntry (l : List DegEntry) : DegEntry :=
  ⟨(l.map DegEntry.base).sum / (l.length : ℚ),
   (l.map DegEntry.slope).sum / (l.length : ℚ)⟩

/-- The synthetic team built when the track is absent (lines 76-85): one mean
entry per dry compound that occurs anywhere in the table. -/
def globalFallback (tbl : DegTable) : TeamData :=
  dryCompounds.filterMap (fun c =>
    if globalEntries tbl c = [] then none
    else some (c, meanEntry (globalEntries tbl c)))

/-- The synthetic team built when the team is absent under a present track
(lines 93-101): one mean entry per dry compound present for that track. -/
def teamFallback (td : TrackData) : TeamData :=
  dryCompounds.filterMap (fun c =>
    if trackEntries td c = [] then none
    else some (c, meanEntry (trackEntries td c)))

/-- Replace the binding of `track` in the table (the effect of mutating the
dict `deg_models[track]` in place). -/
def updateTable (tbl : DegTable) (track : String) (td : TrackData) : DegTable :=
  tbl.map (fun p => if p.1 = track then (track, td) else p)

/-- Lines 74-101 of `simulate_strategy`: resolve the per-track dict
`track_data`, inserting fallbacks for a missing track or team.  Returns the
resolved `track_data` together with the post-call global table: when the track
is present but the team absent, `track_data[team] = ...` writes through the
alias `track_data = deg_models[track]`, mutating the global table. -/
def resolveTrackData (tbl : DegTable) (track team : String) :
    TrackData × DegTable :=
  match tbl.lookup track with
  | none =>
      let td : TrackData := [("Other", globalFallback tbl)]
      (if (td.lookup team).isSome then td
       else td ++ [(team, teamFallback td)], tbl)
  | some td =>
      if (td.lookup team).isSome then (td, tbl)
      else
        let td' := td ++ [(team, teamFallback td)]
        (td', updateTable tbl track td')

/-- The team dict `track_data[team]` the stint loop reads from after fallback
resolution (always present; `getD` is never hit on its default). -/
def resolvedTeam (tbl : DegTable) (track team : String) : TeamData :=
  ((resolveTrackData tbl track team).1.lookup team).getD []

/-- Lines 113-119: resolve `(base, slope)` for the effective compound of a
stint.  `INTERMEDIATE` is derived from the team's `HARD` entry
(`base + 3.0`, `slope * 1.5`) or from the absolute constants `(95.0, 0.03)`;
a dry compound is read straight from the team dict and may be absent. -/
def stintEntry (td : TeamData) (c : Compound) : Option DegEntry :=
  if c = .INTERMEDIATE then
    some (match td.lookup .HARD with
          | some e => ⟨e.base + 3, e.slope * (3 / 2)⟩
          | none => ⟨95, 3 / 100⟩)
  else td.lookup c

/-- The derived wet entry of lines 115-116: the team's `HARD` entry shifted by
`(+3.0, ×1.5)` when present, else the absolute constants `(95.0, 0.03)`. -/
def interEntry (td : TeamData) : DegEntry :=
  match td.lookup .HARD with
  | some e => ⟨e.base + 3, e.slope * (3 / 2)⟩
  | none => ⟨95, 3 / 100⟩

/-- Mutable state of the stint loop (lines 103-107). -/
structure SimState where
  total_time : ℚ
  stint_times : List ℚ
  deg_penalties : List ℚ
  avg_lap_times : List ℚ
  cum_times : List ℚ
  current_cum : ℚ
  first_done : Bool
deriving DecidableEq, Repr

/-- Loop state before the first stint: `total_time = 0.0`,
`cum_times = [0]`, `prev_comp = None`. -/
def initState : SimState := ⟨0, [], [], [], [0], 0, false⟩

/-- Successive partial sums appended to `cum_times` by the inner per-lap loop
(lines 128-131), starting from the running cumulative `start`. -/
def cumList (start : ℚ) : List ℚ → List ℚ
  | [] => []
  | t :: ts => (start + t) :: cumList (start + t) ts

/-- `analytics['cum_times'][-1] += x` (line 141): add `x` to the last element. -/
def addToLast : List ℚ → ℚ → List ℚ
  | [], _ => []
  | [a], x => [a + x]
  | a :: b :: rest, x => a :: addToLast (b :: rest) x

/-- Line 122: `stint_times = [base + j * adjusted_slope for j in range(stint_laps)]`
(`range` of a non-positive Python int is empty). -/
def lapTimes (base adjusted_slope : ℚ) (laps : ℤ) : List ℚ :=
  (List.range laps.toNat).map (fun j : ℕ => base + (j : ℚ) * adjusted_slope)

/-- Body of the stint loop (lines 108-142) for one `(comp, stint_laps)` pair. -/
def simStint (teamData : TeamData) (is_wet : Bool) (temp_factor pit : ℚ)
    (c : Compound) (laps : ℤ) (st : SimState) : Except SimError SimState :=
  let comp := if is_wet ∧ c ≠ Compound.INTERMEDIATE then Compound.INTERMEDIATE else c
  match stintEntry teamData comp with
  | none => .error .keyError
  | some e =>
    if laps = 0 then .error .divZero
    else
      let adjusted_slope := e.slope * temp_factor
      let stint_times := lapTimes e.base adjusted_slope laps
      let stint_time := stint_times.sum
      let deg_penalty := ((List.range laps.toNat).map (fun j : ℕ => (j : ℚ) * e.slope)).sum
      let avg_lap := stint_time / (laps : ℚ)
      let st1 : SimState :=
        { total_time := st.total_time + stint_time
          stint_times := st.stint_times ++ [stint_time]
          deg_penalties := st.deg_penalties ++ [deg_penalty]
          avg_lap_times := st.avg_lap_times ++ [avg_lap]
          cum_times := st.cum_times ++ cumList st.current_cum stint_times
          current_cum := st.current_cum + stint_time
          first_done := st.first_done }
      let st2 : SimState :=
        if st.first_done then
          { st1 with
              total_time := st1.total_time + pit
              current_cum := st1.current_cum + pit
              cum_times := addToLast st1.cum_times pit }
        else st1
      .ok { st2 with first_done := true }

/-- The stint loop over the whole plan. -/
def runStints (teamData : TeamData) (is_wet : Bool) (temp_factor pit : ℚ) :
    Plan → SimState → Except SimError SimState
  | [], st => .ok st
  | (c, laps) :: rest, st =>
    match simStint teamData is_wet temp_factor pit c laps st with
    | .error e => .error e
    | .ok st' => runStints teamData is_wet temp_factor pit rest st'

/-- `simulate_strategy(track, team, weather, strategy)` (lines 62-148).
Parameters `deg` (the `deg_models` dict), `pit_time` and `track_laps` are the
module-level values loaded at import time; the second component of the result
is the `deg_models` table after the call (it is mutated on the team-absent
fallback path). -/
def simulate_strategy (deg : DegTable) (pit_time : ℚ)
    (track_laps : List (String × ℤ)) (track team : String)
    (weather : Weather) (strategy : Plan) :
    Except SimError Analytics × DegTable :=
  match track_laps.lookup track with
  | none => (.error .keyError, deg)
  | some total_laps =>
    if (strategy.map Prod.snd).sum ≠ total_laps then (.error .invalidPlan, deg)
    else
      let is_wet : Bool := decide ((3 : ℚ) / 10 < weather.rain_prob)
      let temp_factor : ℚ := 1 + max 0 ((weather.track_temp - 30) / 100)
      let rd := resolveTrackData deg track team
      let teamData := (rd.1.lookup team).getD []
      match runStints teamData is_wet temp_factor pit_time strategy initState with
      | .error e => (.error e, rd.2)
      | .ok st =>
        let tt := if is_wet then st.total_time * (11 / 10) else st.total_time
        (.ok ⟨st.stint_times, st.deg_penalties, st.avg_lap_times,
              st.cum_times, tt⟩, rd.2)

/-- Python `int(...)` applied to a real value: truncation toward zero.  The
float products `0.3 * total_laps`, ... are modelled exactly in `ℚ`. -/
def pyInt (q : ℚ) : ℤ := if 0 ≤ q then ⌊q⌋ else ⌈q⌉

/-- `s1 = max(10, min(int(0.3 * total_laps), total_laps - 10))` (line 156). -/
def s1 (L : ℤ) : ℤ := max 10 (min (pyInt ((3 : ℚ) / 10 * (L : ℚ))) (L - 10))

/-- Line 159. -/
def s2 (L : ℤ) : ℤ := max 10 (min (pyInt ((5 : ℚ) / 10 * (L : ℚ))) (L - 10))

/-- Line 163. -/
def s3 (L : ℤ) : ℤ := max 10 (min (pyInt ((25 : ℚ) / 100 * (L : ℚ))) (L - 20))

/-- Line 164. -/
def s4 (L : ℤ) : ℤ :=
  max 10 (min (pyInt ((35 : ℚ) / 100 * (L : ℚ))) (L - s3 L - 10))

/-- Line 165. -/
def s5 (L : ℤ) : ℤ := L - s3 L - s4 L

/-- Line 168. -/
def s6 (L : ℤ) : ℤ := max 10 (min (pyInt ((3 : ℚ) / 10 * (L : ℚ))) (L - 20))

/-- Line 169. -/
def s7 (L : ℤ) : ℤ :=
  max 10 (min (pyInt ((4 : ℚ) / 10 * (L : ℚ))) (L - s6 L - 10))

/-- Line 170. -/
def s8 (L : ℤ) : ℤ := L - s6 L - s7 L

/-- Line 173. -/
def s9 (L : ℤ) : ℤ := max 10 (min (pyInt ((3 : ℚ) / 10 * (L : ℚ))) (L - 20))

/-- Line 174. -/
def s10 (L : ℤ) : ℤ :=
  max 10 (min (pyInt ((3 : ℚ) / 10 * (L : ℚ))) (L - s9 L - 10))

/-- Line 175. -/
def s11 (L : ℤ) : ℤ := L - s9 L - s10 L

/-- Line 179. -/
def s12 (L : ℤ) : ℤ := max 10 (min (pyInt ((2 : ℚ) / 10 * (L : ℚ))) (L - 20))

/-- Line 180. -/
def s13 (L : ℤ) : ℤ :=
  max 10 (min (pyInt ((3 : ℚ) / 10 * (L : ℚ))) (L - s12 L - 10))

/-- Line 181. -/
def s14 (L : ℤ) : ℤ := L - s12 L - s13 L

/-- The fixed candidate menu of `optimize_strategy` (lines 153-182). -/
def candidates (L : ℤ) : List Plan :=
  [ [(.SOFT, s1 L), (.HARD, L - s1 L)],
    [(.MEDIUM, s2 L), (.HARD, L - s2 L)],
    [(.SOFT, s3 L), (.MEDIUM, s4 L), (.HARD, s5 L)],
    [(.SOFT, s6 L), (.HARD, s7 L), (.HARD, s8 L)],
    [(.MEDIUM, s9 L), (.SOFT, s10 L), (.HARD, s11 L)],
    [(.SOFT, s12 L), (.SOFT, s13 L), (.HARD, s14 L)] ]

/-- `pit_laps = [sum(s[1] for s in best_strat[:i]) for i in range(1, len(best_strat))]`
(line 210). -/
def pitLaps (p : Plan) : List ℤ :=
  ((List.range p.length).tail).map (fun i => ((p.take i).map Prod.snd).sum)

/-- One iteration of the candidate loop (lines 190-200): simulate the
candidate on the current table, skip it on any error, keep the incumbent
unless the new total time is strictly smaller. -/
def optStep (pit : ℚ) (reg : List (String × ℤ)) (track team : String)
    (w : Weather) (acc : Option (Plan × ℚ × Analytics) × DegTable)
    (strat : Plan) : Option (Plan × ℚ × Analytics) × DegTable :=
  let r := simulate_strategy acc.2 pit reg track team w strat
  match r.1 with
  | .error _ => (acc.1, r.2)
  | .ok a =>
    match acc.1 with
    | none => (some (strat, a.total_time, a), r.2)
    | some (bs, bt, ba) =>
      if a.total_time < bt then (some (strat, a.total_time, a), r.2)
      else (some (bs, bt, ba), r.2)

/-- `optimize_strategy(track, team, weather)` (lines 150-212) with the weather
argument supplied (the `weather is None` branch performs a network fetch that
is outside the core).  The second component is the post-call `deg_models`. -/
def optimize_strategy (deg : DegTable) (pit : ℚ) (reg : List (String × ℤ))
    (track team : String) (w : Weather) :
    Except SimError (Plan × ℚ × List ℤ × Analytics) × DegTable :=
  match reg.lookup track with
  | none => (.error .keyError, deg)
  | some L =>
    let res := (candidates L).foldl (optStep pit reg track team w) (none, deg)
    match res.1 with
    | some (bs, bt, ba) => (.ok (bs, bt, pitLaps bs, ba), res.2)
    | none =>
      let fb : Plan := [(.MEDIUM, L)]
      let r := simulate_strategy res.2 pit reg track team w fb
      match r.1 with
      | .error e => (.error e, r.2)
      | .ok a => (.ok (fb, a.total_time, pitLaps fb, a), r.2)

/-- The static track registry `TRACK_LAPS` of `data_prep.py` (dumped to
`models/track_laps.pkl` and loaded by `strategy_engine.py` as
`track_laps_dict`). -/
def TRACK_LAPS : List (String × ℤ) :=
  [("Bahrain", 57), ("Saudi Arabia", 50), ("Australia", 58), ("Japan", 53),
   ("China", 56), ("Miami", 57), ("Imola", 63), ("Monaco", 78),
   ("Canada", 70), ("Spain", 66), ("Austria", 71), ("Silverstone", 52),
   ("Hungary", 70), ("Belgium", 44), ("Netherlands", 72), ("Monza", 53),
   ("Azerbaijan", 51), ("Singapore", 62), ("USA", 56), ("Mexico", 71),
   ("Brazil", 71), ("Las Vegas", 50), ("Qatar", 57), ("Abu Dhabi", 58)]

/-- The fixed pit-stop constant `pit_time_avg = 22.0` of `data_prep.py`. -/
def pit_time : ℚ := 22

/-- The cumulative-time blocks contributed by the stints after the first,
each stint given with its resolved degradation entry: per stint the loop
(lines 127-141) appends the stint's running cumulative block and then folds
the pit constant into that block's last entry, also advancing the running
cumulative by the block sum plus the pit constant. -/
def pitCum (tf p : ℚ) : ℚ → List (Compound × ℤ × DegEntry) → List ℚ
  | _, [] => []
  | t, x :: rest =>
      addToLast (cumList t (lapTimes x.2.2.base (x.2.2.slope * tf) x.2.1)) p ++
        pitCum tf p
          (t + (lapTimes x.2.2.base (x.2.2.slope * tf) x.2.1).sum + p) rest

/-- The running time contributed by the stints after the first: their lap
times plus exactly one pit constant per stint (lines 133 and 139). -/
def pitTotal (tf p : ℚ) (l : List (Compound × ℤ × DegEntry)) : ℚ :=
  (l.map (fun x => (lapTimes x.2.2.base (x.2.2.slope * tf) x.2.1).sum)).sum +
    (l.length : ℚ) * p

/-! ### List and lookup helper lemmas -/

theorem lookup_cons_self {α β : Type} [BEq α] [LawfulBEq α] (a : α) (e : β)
    (l : List (α × β)) : List.lookup a ((a, e) :: l) = some e := by
  simp [List.lookup]

theorem lookup_cons_ne {α β : Type} [BEq α] [LawfulBEq α] {a k : α} (e : β)
    (l : List (α × β)) (h : a ≠ k) :
    List.lookup a ((k, e) :: l) = List.lookup a l := by
  simp only [List.lookup, beq_eq_false_iff_ne.mpr h]

theorem beq_of_ne {α : Type} [BEq α] [LawfulBEq α] {a b : α} (h : a ≠ b) :
    (a == b) = false := beq_eq_false_iff_ne.mpr h

theorem lookup_mem {α β : Type} [BEq α] [LawfulBEq α] {a : α} {b : β} :
    ∀ {l : List (α × β)}, List.lookup a l = some b → (a, b) ∈ l
  | [], h => by simp [List.lookup] at h
  | (k, v) :: xs, h => by
    rw [List.lookup] at h
    by_cases hx : (a == k) = true
    · rw [hx] at h
      obtain rfl : v = b := by simpa using h
      have : a = k := eq_of_beq hx
      subst this
      exact List.mem_cons_self _ _
    · rw [Bool.not_eq_true] at hx
      rw [hx] at h
      exact List.mem_cons_of_mem _ (lookup_mem h)

theorem lookup_append_of_none {α β : Type} [BEq α] {a : α} {l l' : List (α × β)}
    (h : List.lookup a l = none) :
    List.lookup a (l ++ l') = List.lookup a l' := by
  induction l with
  | nil => simp
  | cons x xs ih =>
    rw [List.cons_append, List.lookup]
    rw [List.lookup] at h
    cases hx : (a == x.1) with
    | true => simp [hx] at h
    | false =>
      rw [hx] at h
      exact ih h

theorem lookup_append_of_some {α β : Type} [BEq α] {a : α} {b : β}
    {l : List (α × β)} (l' : List (α × β)) (h : List.lookup a l = some b) :
    List.lookup a (l ++ l') = some b := by
  induction l with
  | nil => simp [List.lookup] at h
  | cons x xs ih =>
    rw [List.cons_append, List.lookup]
    rw [List.lookup] at h
    cases hx : (a == x.1) with
    | true =>
      rw [hx] at h
      exact h
    | false =>
      rw [hx] at h
      exact ih h

theorem addToLast_append (l : List ℚ) (a x : ℚ) :
    addToLast (l ++ [a]) x = l ++ [a + x] := by
  induction l with
  | nil => rfl
  | cons y ys ih =>
    cases ys with
    | nil => rfl
    | cons z zs =>
      rw [show addToLast ((y :: z :: zs) ++ [a]) x
            = y :: addToLast ((z :: zs) ++ [a]) x from rfl, ih]
      rfl

theorem cumList_length (l : List ℚ) : ∀ s, (cumList s l).length = l.length := by
  induction l with
  | nil => intro s; rfl
  | cons t ts ih => intro s; rw [cumList]; simp [ih]

theorem cumList_ne_nil {l : List ℚ} (h : l ≠ []) (s : ℚ) : cumList s l ≠ [] := by
  cases l with
  | nil => exact absurd rfl h
  | cons t ts => rw [cumList]; exact List.cons_ne_nil _ _

theorem cumList_getLast (l : List ℚ) :
    ∀ s, (cumList s l).getLastD s = s + l.sum := by
  induction l with
  | nil => intro s; simp [cumList]
  | cons t ts ih =>
    intro s
    rw [cumList, List.getLastD_cons, ih, List.sum_cons]
    ring_nf

theorem cumList_chain (l : List ℚ) (hl : ∀ x ∈ l, 0 ≤ x) :
    ∀ s, List.Chain (· ≤ ·) s (cumList s l) := by
  induction l with
  | nil => intro s; exact List.Chain.nil
  | cons t ts ih =>
    intro s
    rw [cumList]
    refine List.Chain.cons ?_ (ih (fun x hx => hl x (List.mem_cons_of_mem _ hx)) _)
    have := hl t (List.mem_cons_self _ _)
    linarith

/-! ### Characterizations of fallback resolution -/

theorem resolveTrackData_team_present {deg : DegTable} {track team : String}
    {td : TrackData} (h : deg.lookup track = some td)
    (h2 : (td.lookup team).isSome) :
    resolveTrackData deg track team = (td, deg) := by
  unfold resolveTrackData
  rw [h]
  simp only [h2, if_pos]

theorem resolveTrackData_team_absent {deg : DegTable} {track team : String}
    {td : TrackData} (h : deg.lookup track = some td)
    (h2 : td.lookup team = none) :
    resolveTrackData deg track team =
      (td ++ [(team, teamFallback td)],
       updateTable deg track (td ++ [(team, teamFallback td)])) := by
  unfold resolveTrackData
  rw [h]
  simp only [h2, Option.isSome_none, Bool.false_eq_true, if_false]

theorem resolveTrackData_track_absent_other {deg : DegTable} {track : String}
    (h : deg.lookup track = none) :
    resolveTrackData deg track "Other" = ([("Other", globalFallback deg)], deg) := by
  unfold resolveTrackData
  rw [h]
  simp [lookup_cons_self]

theorem resolveTrackData_track_absent {deg : DegTable} {track team : String}
    (h : deg.lookup track = none) (hne : team ≠ "Other") :
    resolveTrackData deg track team =
      ([("Other", globalFallback deg),
        (team, teamFallback [("Other", globalFallback deg)])], deg) := by
  unfold resolveTrackData
  rw [h]
  simp [lookup_cons_ne _ _ hne, List.lookup, beq_of_ne hne]

theorem resolvedTeam_present {deg : DegTable} {track team : String}
    {td : TrackData} {tmd : TeamData} (h : deg.lookup track = some td)
    (h2 : td.lookup team = some tmd) :
    resolvedTeam deg track team = tmd := by
  unfold resolvedTeam
  rw [resolveTrackData_team_present h (by rw [h2]; rfl)]
  simp [h2]

theorem resolvedTeam_team_absent {deg : DegTable} {track team : String}
    {td : TrackData} (h : deg.lookup track = some td)
    (h2 : td.lookup team = none) :
    resolvedTeam deg track team = teamFallback td := by
  unfold resolvedTeam
  rw [resolveTrackData_team_absent h h2]
  simp only [lookup_append_of_none h2, lookup_cons_self, Option.getD_some]

theorem resolvedTeam_track_absent_other {deg : DegTable} {track : String}
    (h : deg.lookup track = none) :
    resolvedTeam deg track "Other" = globalFallback deg := by
  unfold resolvedTeam
  rw [resolveTrackData_track_absent_other h]
  simp [lookup_cons_self]

theorem resolvedTeam_track_absent {deg : DegTable} {track team : String}
    (h : deg.lookup track = none) (hne : team ≠ "Other") :
    resolvedTeam deg track team = teamFallback [("Other", globalFallback deg)] := by
  unfold resolvedTeam
  rw [resolveTrackData_track_absent h hne]
  simp [lookup_cons_ne _ _ hne, lookup_cons_self]

theorem teamFallback_lookup (td : TrackData) {c : Compound}
    (hc : c ∈ dryCompounds) :
    (teamFallback td).lookup c =
      if trackEntries td c = [] then none
      else some (meanEntry (trackEntries td c)) := by
  simp only [dryCompounds, List.mem_cons, List.mem_singleton,
    List.not_mem_nil, or_false] at hc
  rcases hc with rfl | rfl | rfl <;>
    (by_cases h1 : trackEntries td .SOFT = [] <;>
     by_cases h2 : trackEntries td .MEDIUM = [] <;>
     by_cases h3 : trackEntries td .HARD = [] <;>
     simp [teamFallback, dryCompounds, List.filterMap, h1, h2, h3,
       List.lookup, lookup_cons_self, lookup_cons_ne, beq_of_ne])

theorem globalFallback_lookup (tbl : DegTable) {c : Compound}
    (hc : c ∈ dryCompounds) :
    (globalFallback tbl).lookup c =
      if globalEntries tbl c = [] then none
      else some (meanEntry (globalEntries tbl c)) := by
  simp only [dryCompounds, List.mem_cons, List.mem_singleton,
    List.not_mem_nil, or_false] at hc
  rcases hc with rfl | rfl | rfl <;>
    (by_cases h1 : globalEntries tbl .SOFT = [] <;>
     by_cases h2 : globalEntries tbl .MEDIUM = [] <;>
     by_cases h3 : globalEntries tbl .HARD = [] <;>
     simp [globalFallback, dryCompounds, List.filterMap, h1, h2, h3,
       List.lookup, lookup_cons_self, lookup_cons_ne, beq_of_ne])

/-! ### Characterizations of the stint loop -/

theorem simStint_none {teamData : TeamData} {iw : Bool} (tf p : ℚ)
    {c : Compound} (n : ℤ) (st : SimState)
    (h : stintEntry teamData
      (if iw ∧ c ≠ Compound.INTERMEDIATE then Compound.INTERMEDIATE else c) = none) :
    simStint teamData iw tf p c n st = .error .keyError := by
  simp only [simStint]
  rw [h]

theorem simStint_zero {teamData : TeamData} {iw : Bool} (tf p : ℚ)
    {c : Compound} (st : SimState) {e : DegEntry}
    (h : stintEntry teamData
      (if iw ∧ c ≠ Compound.INTERMEDIATE then Compound.INTERMEDIATE else c) = some e) :
    simStint teamData iw tf p c 0 st = .error .divZero := by
  simp only [simStint]
  rw [h]
  rfl

theorem simStint_some_first {teamData : TeamData} {iw : Bool} (tf p : ℚ)
    {c : Compound} {n : ℤ} (st : SimState) {e : DegEntry}
    (h : stintEntry teamData
      (if iw ∧ c ≠ Compound.INTERMEDIATE then Compound.INTERMEDIATE else c) = some e)
    (hn : n ≠ 0) (hfd : st.first_done = false) :
    simStint teamData iw tf p c n st =
      .ok ⟨st.total_time + (lapTimes e.base (e.slope * tf) n).sum,
           st.stint_times ++ [(lapTimes e.base (e.slope * tf) n).sum],
           st.deg_penalties ++
             [((List.range n.toNat).map (fun j : ℕ => (j : ℚ) * e.slope)).sum],
           st.avg_lap_times ++ [(lapTimes e.base (e.slope * tf) n).sum / (n : ℚ)],
           st.cum_times ++ cumList st.current_cum (lapTimes e.base (e.slope * tf) n),
           st.current_cum + (lapTimes e.base (e.slope * tf) n).sum,
           true⟩ := by
  simp only [simStint, h, if_neg hn, hfd]
  rfl

theorem simStint_some_pit {teamData : TeamData} {iw : Bool} (tf p : ℚ)
    {c : Compound} {n : ℤ} (st : SimState) {e : DegEntry}
    (h : stintEntry teamData
      (if iw ∧ c ≠ Compound.INTERMEDIATE then Compound.INTERMEDIATE else c) = some e)
    (hn : n ≠ 0) (hfd : st.first_done = true) :
    simStint teamData iw tf p c n st =
      .ok ⟨st.total_time + (lapTimes e.base (e.slope * tf) n).sum + p,
           st.stint_times ++ [(lapTimes e.base (e.slope * tf) n).sum],
           st.deg_penalties ++
             [((List.range n.toNat).map (fun j : ℕ => (j : ℚ) * e.slope)).sum],
           st.avg_lap_times ++ [(lapTimes e.base (e.slope * tf) n).sum / (n : ℚ)],
           addToLast
             (st.cum_times ++ cumList st.current_cum (lapTimes e.base (e.slope * tf) n)) p,
           st.current_cum + (lapTimes e.base (e.slope * tf) n).sum + p,
           true⟩ := by
  simp only [simStint, h, if_neg hn, hfd]
  rfl

theorem runStints_nil (teamData : TeamData) (iw : Bool) (tf p : ℚ)
    (st : SimState) : runStints teamData iw tf p [] st = .ok st := rfl

theorem runStints_cons_ok {teamData : TeamData} {iw : Bool} {tf p : ℚ}
    {c : Compound} {n : ℤ} {st st' : SimState} (rest : Plan)
    (h : simStint teamData iw tf p c n st = .ok st') :
    runStints teamData iw tf p ((c, n) :: rest) st =
      runStints teamData iw tf p rest st' := by
  simp only [runStints]
  rw [h]

theorem runStints_cons_err {teamData : TeamData} {iw : Bool} {tf p : ℚ}
    {c : Compound} {n : ℤ} {st : SimState} {e : SimError} (rest : Plan)
    (h : simStint teamData iw tf p c n st = .error e) :
    runStints teamData iw tf p ((c, n) :: rest) st = .error e := by
  simp only [runStints]
  rw [h]

/-! ### Characterizations of `simulate_strategy` -/

theorem simulate_noTrack {deg : DegTable} {pit : ℚ} {reg : List (String × ℤ)}
    {track team : String} {w : Weather} {s : Plan}
    (hL : reg.lookup track = none) :
    simulate_strategy deg pit reg track team w s = (.error .keyError, deg) := by
  simp only [simulate_strategy]
  rw [hL]

theorem simulate_invalid {deg : DegTable} {pit : ℚ} {reg : List (String × ℤ)}
    {track team : String} {w : Weather} {s : Plan} {L : ℤ}
    (hL : reg.lookup track = some L) (hsum : (s.map Prod.snd).sum ≠ L) :
    simulate_strategy deg pit reg track team w s = (.error .invalidPlan, deg) := by
  simp only [simulate_strategy, hL]
  rw [if_pos hsum]

theorem simulate_run {deg : DegTable} {pit : ℚ} {reg : List (String × ℤ)}
    {track team : String} {w : Weather} {s : Plan} {L : ℤ} {iw : Bool} {tf : ℚ}
    (hL : reg.lookup track = some L) (hsum : (s.map Prod.snd).sum = L)
    (hw : decide ((3 : ℚ) / 10 < w.rain_prob) = iw)
    (htf : 1 + max 0 ((w.track_temp - 30) / 100) = tf) :
    simulate_strategy deg pit reg track team w s =
      ((match runStints (resolvedTeam deg track team) iw tf pit s initState with
        | .error e => .error e
        | .ok st =>
            .ok ⟨st.stint_times, st.deg_penalties, st.avg_lap_times, st.cum_times,
                 if iw then st.total_time * (11 / 10) else st.total_time⟩),
       (resolveTrackData deg track team).2) := by
  simp only [simulate_strategy, resolvedTeam, hL]
  rw [if_neg (fun hh => hh hsum)]
  simp only [hw, htf]
  cases runStints ((List.lookup team (resolveTrackData deg track team).1).getD [])
    iw tf pit s initState <;> rfl

theorem stintEntry_inter (td : TeamData) :
    stintEntry td .INTERMEDIATE = some (interEntry td) := rfl

theorem stintEntry_eff_inter (td : TeamData) (iw : Bool) :
    stintEntry td
      (if iw ∧ Compound.INTERMEDIATE ≠ Compound.INTERMEDIATE
       then Compound.INTERMEDIATE else Compound.INTERMEDIATE) =
    some (interEntry td) := by
  rw [ite_self]
  rfl

theorem simStint_ne_invalidPlan (td : TeamData) (iw : Bool) (tf p : ℚ)
    (c : Compound) (n : ℤ) (st : SimState) :
    simStint td iw tf p c n st ≠ .error .invalidPlan := by
  simp only [simStint]
  cases h : stintEntry td
      (if iw ∧ c ≠ Compound.INTERMEDIATE then Compound.INTERMEDIATE else c) with
  | none => simp
  | some e => by_cases hn : n = 0 <;> simp [hn]

theorem runStints_ne_invalidPlan (td : TeamData) (iw : Bool) (tf p : ℚ) :
    ∀ (s : Plan) (st : SimState),
      runStints td iw tf p s st ≠ .error .invalidPlan
  | [], st => by simp [runStints]
  | (c, n) :: rest, st => by
    rw [runStints]
    cases h : simStint td iw tf p c n st with
    | error e =>
      have hne := simStint_ne_invalidPlan td iw tf p c n st
      rw [h] at hne
      simpa using hne
    | ok st' => exact runStints_ne_invalidPlan td iw tf p rest st'

theorem simStint_inter_ok (td : TeamData) (iw : Bool) (tf p : ℚ) {n : ℤ}
    (st : SimState) (hn : n ≠ 0) :
    ∃ st', simStint td iw tf p Compound.INTERMEDIATE n st = .ok st' := by
  cases hfd : st.first_done with
  | false => exact ⟨_, simStint_some_first tf p st (stintEntry_eff_inter td iw) hn hfd⟩
  | true => exact ⟨_, simStint_some_pit tf p st (stintEntry_eff_inter td iw) hn hfd⟩

theorem runStints_inter_ok (td : TeamData) (iw : Bool) (tf p : ℚ) :
    ∀ (s : Plan) (st : SimState),
      (∀ x ∈ s, x.1 = Compound.INTERMEDIATE) → (∀ x ∈ s, x.2 ≠ 0) →
      ∃ st', runStints td iw tf p s st = .ok st'
  | [], st, _, _ => ⟨st, rfl⟩
  | (c, n) :: rest, st, hall, hpos => by
    have hc : c = Compound.INTERMEDIATE := hall (c, n) (List.mem_cons_self _ _)
    have hn : n ≠ 0 := hpos (c, n) (List.mem_cons_self _ _)
    subst hc
    obtain ⟨st', hst⟩ := simStint_inter_ok td iw tf p st hn
    rw [runStints_cons_ok rest hst]
    exact runStints_inter_ok td iw tf p rest st'
      (fun x hx => hall x (List.mem_cons_of_mem _ hx))
      (fun x hx => hpos x (List.mem_cons_of_mem _ hx))

/-- C2: for every track in the registry and every plan, `simulate_strategy`
raises the invalid-plan error if and only if the sum of the plan's stint lap
counts differs from the track's registered total laps. -/
theorem C2_invalid_plan_iff (deg : DegTable) (pit : ℚ)
    (reg : List (String × ℤ)) (track team : String) (w : Weather) (s : Plan)
    (L : ℤ) (hL : reg.lookup track = some L) :
    (simulate_strategy deg pit reg track team w s).1 = .error .invalidPlan ↔
      (s.map Prod.snd).sum ≠ L := by
  constructor
  · intro h
    by_contra hsum0
    rw [simulate_run hL hsum0 rfl rfl] at h
    revert h
    cases hr : runStints (resolvedTeam deg track team)
        (decide ((3 : ℚ) / 10 < w.rain_prob))
        (1 + max 0 ((w.track_temp - 30) / 100)) pit s initState with
    | error e =>
      intro h
      have hne := runStints_ne_invalidPlan (resolvedTeam deg track team)
        (decide ((3 : ℚ) / 10 < w.rain_prob))
        (1 + max 0 ((w.track_temp - 30) / 100)) pit s initState
      rw [hr] at hne
      simp only [Except.error.injEq] at h
      exact hne (by rw [h])
    | ok st => intro h; simp at h
  · intro hsum
    rw [simulate_invalid hL hsum]

/-- C2 witness: on a registry with 57 laps for Bahrain, a 20-lap single-stint
plan is rejected with the invalid-plan error. -/
theorem C2_witness :
    (simulate_strategy [] 22 [("Bahrain", 57)] "Bahrain" "Ferrari" ⟨30, 0⟩
      [(Compound.SOFT, 20)]).1 = .error .invalidPlan :=
  (C2_invalid_plan_iff [] 22 [("Bahrain", 57)] "Bahrain" "Ferrari" ⟨30, 0⟩
    [(Compound.SOFT, 20)] 57 rfl).mpr (by decide)

/-- C10: in dry weather (`rain_prob ≤ 0.3`) a plan made of `INTERMEDIATE`
stints is accepted—simulation succeeds for every table—and the entry used is
never read from the table under the key `INTERMEDIATE`: it is derived from the
resolved team's `HARD` entry as `(base+3, slope*1.5)`, or is the constant
`(95, 0.03)` when no `HARD` entry is present. -/
theorem C10_inter_dry (deg : DegTable) (pit : ℚ) (reg : List (String × ℤ))
    (track team : String) (w : Weather) (s : Plan) (L : ℤ)
    (hL : reg.lookup track = some L) (hsum : (s.map Prod.snd).sum = L)
    (_hdry : w.rain_prob ≤ 3 / 10)
    (hall : ∀ x ∈ s, x.1 = Compound.INTERMEDIATE)
    (hpos : ∀ x ∈ s, x.2 ≠ 0) :
    (∃ a, (simulate_strategy deg pit reg track team w s).1 = .ok a) ∧
    (∀ e, (resolvedTeam deg track team).lookup .HARD = some e →
      stintEntry (resolvedTeam deg track team) .INTERMEDIATE =
        some ⟨e.base + 3, e.slope * (3 / 2)⟩) ∧
    ((resolvedTeam deg track team).lookup .HARD = none →
      stintEntry (resolvedTeam deg track team) .INTERMEDIATE =
        some ⟨95, 3 / 100⟩) := by
  refine ⟨?_, ?_, ?_⟩
  · obtain ⟨st', hst⟩ := runStints_inter_ok (resolvedTeam deg track team)
      (decide ((3 : ℚ) / 10 < w.rain_prob))
      (1 + max 0 ((w.track_temp - 30) / 100)) pit s initState hall hpos
    simp only [simulate_run hL hsum rfl rfl, hst]
    exact ⟨_, rfl⟩
  · intro e he
    rw [stintEntry_inter, interEntry, he]
  · intro he
    rw [stintEntry_inter, interEntry, he]

/-- C10 witness: a two-stint all-`INTERMEDIATE` plan on an empty table in dry
weather simulates successfully, with the constant fallback entry. -/
theorem C10_witness :
    (∃ a, (simulate_strategy [] 22 [("Monza", 53)] "Monza" "Ferrari" ⟨30, 0⟩
      [(Compound.INTERMEDIATE, 30), (Compound.INTERMEDIATE, 23)]).1 = .ok a) ∧
    ((resolvedTeam [] "Monza" "Ferrari").lookup .HARD = none →
      stintEntry (resolvedTeam [] "Monza" "Ferrari") .INTERMEDIATE =
        some ⟨95, 3 / 100⟩) := by
  have h := C10_inter_dry [] 22 [("Monza", 53)] "Monza" "Ferrari" ⟨30, 0⟩
    [(Compound.INTERMEDIATE, 30), (Compound.INTERMEDIATE, 23)] 53 rfl
    (by decide) (by norm_num) (by decide) (by decide)
  exact ⟨h.1, h.2.2⟩

theorem trackEntries_singleton (t : String) (td0 : TeamData) (c : Compound) :
    trackEntries [(t, td0)] c =
      (match td0.lookup c with
       | some e => [e]
       | none => []) := by
  cases h : td0.lookup c <;> simp [trackEntries, List.filterMap, h]

/-- C1 (amended): resolution of a dry compound succeeds whenever the
track-absent fallback applies and the compound occurs somewhere in the table,
or the team-absent fallback applies and the compound occurs for some team at
that track.  (On an exact track/team match the team's own dict must contain
the compound; a missing compound there raises, see the counterexample.) -/
theorem C1_fallback_resolution (deg : DegTable) (track team : String)
    (c : Compound) (hc : c ∈ dryCompounds)
    (h : (deg.lookup track = none ∧ globalEntries deg c ≠ []) ∨
         (∃ td, deg.lookup track = some td ∧ td.lookup team = none ∧
            trackEntries td c ≠ [])) :
    ((resolvedTeam deg track team).lookup c).isSome := by
  rcases h with ⟨htr, hglob⟩ | ⟨td, htr, hteam, htrk⟩
  · by_cases hother : team = "Other"
    · subst hother
      rw [resolvedTeam_track_absent_other htr, globalFallback_lookup deg hc,
        if_neg hglob]
      rfl
    · have hsing : trackEntries [("Other", globalFallback deg)] c =
          [meanEntry (globalEntries deg c)] := by
        rw [trackEntries_singleton, globalFallback_lookup deg hc, if_neg hglob]
      rw [resolvedTeam_track_absent htr hother, teamFallback_lookup _ hc,
        hsing, if_neg (by simp)]
      rfl
  · rw [resolvedTeam_team_absent htr hteam, teamFallback_lookup _ hc,
      if_neg htrk]
    rfl

/-- C1 witness: with Monza stored only for Ferrari, resolving SOFT for the
absent team McLaren succeeds via the team-absent average. -/
theorem C1_witness :
    ((resolvedTeam [("Monza", [("Ferrari", [(Compound.SOFT, ⟨90, 1⟩)])])]
        "Monza" "McLaren").lookup Compound.SOFT).isSome :=
  C1_fallback_resolution [("Monza", [("Ferrari", [(Compound.SOFT, ⟨90, 1⟩)])])]
    "Monza" "McLaren" Compound.SOFT (by decide)
    (Or.inr ⟨[("Ferrari", [(Compound.SOFT, ⟨90, 1⟩)])], rfl, rfl, by decide⟩)

/-- C1 counterexample: the table stores Monza for Ferrari (only an
INTERMEDIATE entry) and for Mercedes (a MEDIUM entry); MEDIUM is therefore
non-empty in the table, yet simulating a MEDIUM plan for Ferrari raises a
key error: with track and team both present, a missing compound is not
resolved by any fallback. -/
theorem C1_counterexample :
    (simulate_strategy
        [("Monza", [("Ferrari", [(Compound.INTERMEDIATE, ⟨95, 1⟩)]),
                    ("Mercedes", [(Compound.MEDIUM, ⟨90, 1⟩)])])]
        22 [("Monza", 53)] "Monza" "Ferrari" ⟨30, 0⟩
        [(Compound.MEDIUM, 53)]).1 = .error .keyError ∧
    globalEntries
        [("Monza", [("Ferrari", [(Compound.INTERMEDIATE, ⟨95, 1⟩)]),
                    ("Mercedes", [(Compound.MEDIUM, ⟨90, 1⟩)])])]
        Compound.MEDIUM ≠ [] := by
  constructor
  · rw [@simulate_run
        [("Monza", [("Ferrari", [(Compound.INTERMEDIATE, ⟨95, 1⟩)]),
                    ("Mercedes", [(Compound.MEDIUM, ⟨90, 1⟩)])])]
        22 [("Monza", 53)] "Monza" "Ferrari" ⟨30, 0⟩
        [(Compound.MEDIUM, 53)] 53 false 1 rfl (by decide)
        (by norm_num) (by norm_num)]
    rw [@resolvedTeam_present
        [("Monza", [("Ferrari", [(Compound.INTERMEDIATE, ⟨95, 1⟩)]),
                    ("Mercedes", [(Compound.MEDIUM, ⟨90, 1⟩)])])]
        "Monza" "Ferrari"
        [("Ferrari", [(Compound.INTERMEDIATE, ⟨95, 1⟩)]),
         ("Mercedes", [(Compound.MEDIUM, ⟨90, 1⟩)])]
        [(Compound.INTERMEDIATE, ⟨95, 1⟩)] rfl rfl]
    have h1 : simStint [(Compound.INTERMEDIATE, (⟨95, 1⟩ : DegEntry))] false 1 22
        Compound.MEDIUM 53 initState = .error .keyError :=
      simStint_none 1 22 53 initState rfl
    rw [runStints_cons_err [] h1]
  · decide

/-- C7: when the track is present but the team absent under it, the resolved
entry for a dry compound present at that track is the arithmetic mean of the
bases and the arithmetic mean of the slopes over the teams of that track that
have the compound. -/
theorem C7_team_average (deg : DegTable) (track team : String) (td : TrackData)
    (c : Compound) (hc : c ∈ dryCompounds)
    (htr : deg.lookup track = some td) (hteam : td.lookup team = none)
    (hne : trackEntries td c ≠ []) :
    (resolvedTeam deg track team).lookup c =
      some ⟨((trackEntries td c).map DegEntry.base).sum /
              ((trackEntries td c).length : ℚ),
            ((trackEntries td c).map DegEntry.slope).sum /
              ((trackEntries td c).length : ℚ)⟩ := by
  rw [resolvedTeam_team_absent htr hteam, teamFallback_lookup _ hc, if_neg hne]
  rfl

/-- C7 witness: the spec's Monza example—Monza stored for Ferrari and
Mercedes but not McLaren; resolving (Monza, McLaren, SOFT) yields the
average of Ferrari's and Mercedes' SOFT entries. -/
theorem C7_witness :
    (resolvedTeam
        [("Monza", [("Ferrari", [(Compound.SOFT, ⟨90, 2⟩)]),
                    ("Mercedes", [(Compound.SOFT, ⟨92, 4⟩)])])]
        "Monza" "McLaren").lookup Compound.SOFT = some ⟨91, 3⟩ := by
  have h := C7_team_average
    [("Monza", [("Ferrari", [(Compound.SOFT, ⟨90, 2⟩)]),
                ("Mercedes", [(Compound.SOFT, ⟨92, 4⟩)])])]
    "Monza" "McLaren"
    [("Ferrari", [(Compound.SOFT, ⟨90, 2⟩)]),
     ("Mercedes", [(Compound.SOFT, ⟨92, 4⟩)])]
    Compound.SOFT (by decide) rfl rfl (by decide)
  rw [h]
  have he : trackEntries
      [("Ferrari", [(Compound.SOFT, ⟨90, 2⟩)]),
       ("Mercedes", [(Compound.SOFT, ⟨92, 4⟩)])] Compound.SOFT =
      [⟨90, 2⟩, ⟨92, 4⟩] := rfl
  rw [he]
  norm_num

/-- C3 (amended): `simulate_strategy` leaves the degradation table unchanged
in every case except the team-absent fallback on a present track with a valid
plan and registered track, where the synthesized average entry for the team is
recorded into the table under that track. -/
theorem C3_table_effect (deg : DegTable) (pit : ℚ) (reg : List (String × ℤ))
    (track team : String) (w : Weather) (s : Plan) :
    (deg.lookup track = none →
       (simulate_strategy deg pit reg track team w s).2 = deg) ∧
    (∀ td, deg.lookup track = some td → (td.lookup team).isSome →
       (simulate_strategy deg pit reg track team w s).2 = deg) ∧
    (∀ td L, reg.lookup track = some L → (s.map Prod.snd).sum = L →
       deg.lookup track = some td → td.lookup team = none →
       (simulate_strategy deg pit reg track team w s).2 =
         updateTable deg track (td ++ [(team, teamFallback td)])) := by
  refine ⟨?_, ?_, ?_⟩
  · intro htr
    cases hreg : reg.lookup track with
    | none => rw [simulate_noTrack hreg]
    | some L =>
      by_cases hs : (s.map Prod.snd).sum = L
      · rw [simulate_run hreg hs rfl rfl]
        show (resolveTrackData deg track team).2 = deg
        by_cases hother : team = "Other"
        · subst hother
          rw [resolveTrackData_track_absent_other htr]
        · rw [resolveTrackData_track_absent htr hother]
      · rw [simulate_invalid hreg hs]
  · intro td htr hteam
    cases hreg : reg.lookup track with
    | none => rw [simulate_noTrack hreg]
    | some L =>
      by_cases hs : (s.map Prod.snd).sum = L
      · rw [simulate_run hreg hs rfl rfl]
        show (resolveTrackData deg track team).2 = deg
        rw [resolveTrackData_team_present htr hteam]
      · rw [simulate_invalid hreg hs]
  · intro td L hreg hs htr hteam
    rw [simulate_run hreg hs rfl rfl]
    show (resolveTrackData deg track team).2 = _
    rw [resolveTrackData_team_absent htr hteam]

/-- C3 witness: simulating for the absent team Mercedes on a present Monza
writes the synthesized Mercedes entry into the table. -/
theorem C3_witness :
    (simulate_strategy [("Monza", [("Ferrari", [(Compound.SOFT, ⟨90, 1⟩)])])]
        22 [("Monza", 53)] "Monza" "Mercedes" ⟨30, 0⟩
        [(Compound.SOFT, 53)]).2 =
      updateTable [("Monza", [("Ferrari", [(Compound.SOFT, ⟨90, 1⟩)])])] "Monza"
        ([("Ferrari", [(Compound.SOFT, ⟨90, 1⟩)])] ++
         [("Mercedes", teamFallback [("Ferrari", [(Compound.SOFT, ⟨90, 1⟩)])])]) :=
  (C3_table_effect [("Monza", [("Ferrari", [(Compound.SOFT, ⟨90, 1⟩)])])]
      22 [("Monza", 53)] "Monza" "Mercedes" ⟨30, 0⟩ [(Compound.SOFT, 53)]).2.2
    [("Ferrari", [(Compound.SOFT, ⟨90, 1⟩)])] 53 rfl (by decide) rfl rfl

/-- C3 counterexample: the team-absent fallback path mutates the degradation
table—after simulating for Mercedes (absent under a present Monza), the
post-call table differs from the pre-call table. -/
theorem C3_counterexample :
    (simulate_strategy [("Monza", [("Ferrari", [(Compound.SOFT, ⟨90, 1⟩)])])]
        22 [("Monza", 53)] "Monza" "Mercedes" ⟨30, 0⟩
        [(Compound.SOFT, 53)]).2 ≠
      [("Monza", [("Ferrari", [(Compound.SOFT, ⟨90, 1⟩)])])] := by
  have h2 : (simulate_strategy [("Monza", [("Ferrari", [(Compound.SOFT, ⟨90, 1⟩)])])]
        22 [("Monza", 53)] "Monza" "Mercedes" ⟨30, 0⟩
        [(Compound.SOFT, 53)]).2 =
      updateTable [("Monza", [("Ferrari", [(Compound.SOFT, ⟨90, 1⟩)])])] "Monza"
        ([("Ferrari", [(Compound.SOFT, ⟨90, 1⟩)])] ++
         [("Mercedes", teamFallback [("Ferrari", [(Compound.SOFT, ⟨90, 1⟩)])])]) := by
    rw [@simulate_run [("Monza", [("Ferrari", [(Compound.SOFT, ⟨90, 1⟩)])])]
        22 [("Monza", 53)] "Monza" "Mercedes" ⟨30, 0⟩ [(Compound.SOFT, 53)]
        53 false 1 rfl (by decide) (by norm_num) (by norm_num)]
    show (resolveTrackData [("Monza", [("Ferrari", [(Compound.SOFT, ⟨90, 1⟩)])])]
        "Monza" "Mercedes").2 = _
    rw [@resolveTrackData_team_absent
        [("Monza", [("Ferrari", [(Compound.SOFT, ⟨90, 1⟩)])])]
        "Monza" "Mercedes" [("Ferrari", [(Compound.SOFT, ⟨90, 1⟩)])] rfl rfl]
  rw [h2]
  simp [updateTable]

theorem addToLast_append_left (A : List ℚ) {B : List ℚ} (hB : B ≠ []) (x : ℚ) :
    addToLast (A ++ B) x = A ++ addToLast B x := by
  induction A with
  | nil => simp
  | cons y ys ih =>
    cases hyB : ys ++ B with
    | nil => exact absurd (List.append_eq_nil.mp hyB).2 hB
    | cons b bs =>
      rw [List.cons_append, hyB,
        show addToLast (y :: b :: bs) x = y :: addToLast (b :: bs) x from rfl,
        ← hyB, ih]
      rfl

theorem lapTimes_length (b s : ℚ) (n : ℤ) : (lapTimes b s n).length = n.toNat := by
  rw [lapTimes, List.length_map, List.length_range]

theorem lapTimes_ne_nil (b s : ℚ) {n : ℤ} (hn : 0 < n) : lapTimes b s n ≠ [] := by
  intro h
  have hl := congrArg List.length h
  rw [lapTimes_length] at hl
  simp at hl
  omega

/-- Two-stint run from the initial state: the pit-stop constant is charged
once, to the running total and to the LAST cumulative entry of the SECOND
stint (the stint that follows the pit stop); the first stint's cumulative
block is pit-free. -/
theorem runStints_two (td : TeamData) (iw : Bool) (tf p : ℚ) (c1 c2 : Compound)
    (n1 n2 : ℤ) (e1 e2 : DegEntry)
    (h1 : stintEntry td
      (if iw ∧ c1 ≠ Compound.INTERMEDIATE then Compound.INTERMEDIATE else c1) = some e1)
    (h2 : stintEntry td
      (if iw ∧ c2 ≠ Compound.INTERMEDIATE then Compound.INTERMEDIATE else c2) = some e2)
    (hn1 : 0 < n1) (hn2 : 0 < n2) :
    runStints td iw tf p [(c1, n1), (c2, n2)] initState =
      .ok ⟨(lapTimes e1.base (e1.slope * tf) n1).sum +
             (lapTimes e2.base (e2.slope * tf) n2).sum + p,
           [(lapTimes e1.base (e1.slope * tf) n1).sum,
            (lapTimes e2.base (e2.slope * tf) n2).sum],
           [((List.range n1.toNat).map (fun j : ℕ => (j : ℚ) * e1.slope)).sum,
            ((List.range n2.toNat).map (fun j : ℕ => (j : ℚ) * e2.slope)).sum],
           [(lapTimes e1.base (e1.slope * tf) n1).sum / (n1 : ℚ),
            (lapTimes e2.base (e2.slope * tf) n2).sum / (n2 : ℚ)],
           (0 :: cumList 0 (lapTimes e1.base (e1.slope * tf) n1)) ++
             addToLast
               (cumList ((lapTimes e1.base (e1.slope * tf) n1).sum)
                 (lapTimes e2.base (e2.slope * tf) n2)) p,
           (lapTimes e1.base (e1.slope * tf) n1).sum +
             (lapTimes e2.base (e2.slope * tf) n2).sum + p,
           true⟩ := by
  rw [runStints_cons_ok [(c2, n2)]
    (simStint_some_first tf p initState h1 (by omega) rfl)]
  rw [runStints_cons_ok []
    (simStint_some_pit tf p
      ⟨initState.total_time + (lapTimes e1.base (e1.slope * tf) n1).sum,
       initState.stint_times ++ [(lapTimes e1.base (e1.slope * tf) n1).sum],
       initState.deg_penalties ++
         [((List.range n1.toNat).map (fun j : ℕ => (j : ℚ) * e1.slope)).sum],
       initState.avg_lap_times ++ [(lapTimes e1.base (e1.slope * tf) n1).sum / (n1 : ℚ)],
       initState.cum_times ++ cumList initState.current_cum (lapTimes e1.base (e1.slope * tf) n1),
       initState.current_cum + (lapTimes e1.base (e1.slope * tf) n1).sum,
       true⟩
      h2 (by omega) rfl)]
  rw [runStints_nil]
  simp only [initState, List.nil_append, List.singleton_append, zero_add]
  rw [addToLast_append_left (0 :: cumList 0 (lapTimes e1.base (e1.slope * tf) n1))
    (cumList_ne_nil (lapTimes_ne_nil e2.base (e2.slope * tf) hn2) _) p]

theorem effComp_dry (c : Compound) :
    (if (false : Bool) ∧ c ≠ Compound.INTERMEDIATE
     then Compound.INTERMEDIATE else c) = c := by
  simp

theorem runStints_pit_fold (td : TeamData) (iw : Bool) (tf p : ℚ) :
    ∀ (l : List (Compound × ℤ × DegEntry)),
      (∀ x ∈ l, stintEntry td
          (if iw ∧ x.1 ≠ Compound.INTERMEDIATE
           then Compound.INTERMEDIATE else x.1) = some x.2.2 ∧ 0 < x.2.1) →
      ∀ st : SimState, st.first_done = true →
      ∃ st', runStints td iw tf p (l.map (fun y => (y.1, y.2.1))) st = .ok st' ∧
        st'.cum_times = st.cum_times ++ pitCum tf p st.current_cum l ∧
        st'.total_time = st.total_time + pitTotal tf p l ∧
        st'.current_cum = st.current_cum + pitTotal tf p l ∧
        st'.first_done = true := by
  intro l
  induction l with
  | nil =>
    intro _ st hfd
    exact ⟨st, rfl, by simp [pitCum], by simp [pitTotal], by simp [pitTotal],
      hfd⟩
  | cons x rest ih =>
    intro h st hfd
    obtain ⟨hx, hn⟩ := h x (List.mem_cons_self x rest)
    have hstep := simStint_some_pit tf p st hx (by omega : x.2.1 ≠ 0) hfd
    obtain ⟨st', h1, h2, h3, h4, h5⟩ :=
      ih (fun y hy => h y (List.mem_cons_of_mem x hy))
        ⟨st.total_time + (lapTimes x.2.2.base (x.2.2.slope * tf) x.2.1).sum + p,
         st.stint_times ++ [(lapTimes x.2.2.base (x.2.2.slope * tf) x.2.1).sum],
         st.deg_penalties ++
           [((List.range x.2.1.toNat).map
               (fun j : ℕ => (j : ℚ) * x.2.2.slope)).sum],
         st.avg_lap_times ++
           [(lapTimes x.2.2.base (x.2.2.slope * tf) x.2.1).sum / (x.2.1 : ℚ)],
         addToLast
           (st.cum_times ++
             cumList st.current_cum
               (lapTimes x.2.2.base (x.2.2.slope * tf) x.2.1)) p,
         st.current_cum + (lapTimes x.2.2.base (x.2.2.slope * tf) x.2.1).sum + p,
         true⟩ rfl
    dsimp only at h2 h3 h4
    refine ⟨st', ?_, ?_, ?_, ?_, h5⟩
    · show runStints td iw tf p
        ((x.1, x.2.1) :: rest.map (fun y => (y.1, y.2.1))) st = .ok st'
      rw [runStints_cons_ok (rest.map (fun y => (y.1, y.2.1))) hstep]
      exact h1
    · rw [h2]
      simp only [pitCum]
      rw [addToLast_append_left st.cum_times
        (cumList_ne_nil
          (lapTimes_ne_nil x.2.2.base (x.2.2.slope * tf) hn) _) p]
      rw [List.append_assoc]
    · rw [h3]
      simp only [pitTotal, List.map_cons, List.sum_cons, List.length_cons]
      push_cast
      ring
    · rw [h4]
      simp only [pitTotal, List.map_cons, List.sum_cons, List.length_cons]
      push_cast
      ring

/-- C4 (amended): for every valid plan (each stint resolvable with a
positive lap count) with any number of stints and in any weather, the
pit-stop constant is added exactly once per stint after the first to the
pre-wet-factor total time, no separate cumulative entry is created for it,
and each pit is folded into the cumulative entry recorded for the LAST LAP
OF THE STINT THAT FOLLOWS the pit stop (the stint just simulated), never
the stint completed before it: the first stint's cumulative block is
pit-free and every later stint's block carries the pit constant in its own
last entry. -/
theorem C4_pit_folding (deg : DegTable) (pit : ℚ) (reg : List (String × ℤ))
    (track team : String) (w : Weather) (iw : Bool) (tf : ℚ)
    (x : Compound × ℤ × DegEntry) (l : List (Compound × ℤ × DegEntry)) (L : ℤ)
    (hL : reg.lookup track = some L)
    (hsum : ((((x :: l).map (fun y => (y.1, y.2.1)) : Plan)).map
      Prod.snd).sum = L)
    (hw : decide ((3 : ℚ) / 10 < w.rain_prob) = iw)
    (htf : 1 + max 0 ((w.track_temp - 30) / 100) = tf)
    (hres : ∀ y ∈ x :: l, stintEntry (resolvedTeam deg track team)
      (if iw ∧ y.1 ≠ Compound.INTERMEDIATE
       then Compound.INTERMEDIATE else y.1) = some y.2.2 ∧ 0 < y.2.1) :
    ∃ a, (simulate_strategy deg pit reg track team w
        ((x :: l).map (fun y => (y.1, y.2.1)))).1 = .ok a ∧
      a.cum_times =
        0 :: cumList 0 (lapTimes x.2.2.base (x.2.2.slope * tf) x.2.1) ++
          pitCum tf pit (lapTimes x.2.2.base (x.2.2.slope * tf) x.2.1).sum l ∧
      a.total_time =
        (if iw
         then ((lapTimes x.2.2.base (x.2.2.slope * tf) x.2.1).sum +
                 pitTotal tf pit l) * (11 / 10)
         else (lapTimes x.2.2.base (x.2.2.slope * tf) x.2.1).sum +
                 pitTotal tf pit l) := by
  obtain ⟨hx, hn⟩ := hres x (List.mem_cons_self x l)
  have hstep := simStint_some_first tf pit initState hx
    (by omega : x.2.1 ≠ 0) rfl
  obtain ⟨st', h1, h2, h3, h4, h5⟩ := runStints_pit_fold
    (resolvedTeam deg track team) iw tf pit l
    (fun y hy => hres y (List.mem_cons_of_mem x hy))
    ⟨initState.total_time +
       (lapTimes x.2.2.base (x.2.2.slope * tf) x.2.1).sum,
     initState.stint_times ++
       [(lapTimes x.2.2.base (x.2.2.slope * tf) x.2.1).sum],
     initState.deg_penalties ++
       [((List.range x.2.1.toNat).map
           (fun j : ℕ => (j : ℚ) * x.2.2.slope)).sum],
     initState.avg_lap_times ++
       [(lapTimes x.2.2.base (x.2.2.slope * tf) x.2.1).sum / (x.2.1 : ℚ)],
     initState.cum_times ++
       cumList initState.current_cum
         (lapTimes x.2.2.base (x.2.2.slope * tf) x.2.1),
     initState.current_cum +
       (lapTimes x.2.2.base (x.2.2.slope * tf) x.2.1).sum,
     true⟩ rfl
  simp only [initState, List.singleton_append, List.cons_append, zero_add]
    at h2 h3
  rw [simulate_run hL hsum hw htf]
  have hplan : ((x :: l).map (fun y => (y.1, y.2.1)) : Plan) =
      (x.1, x.2.1) :: l.map (fun y => (y.1, y.2.1)) := rfl
  rw [hplan, runStints_cons_ok (l.map (fun y => (y.1, y.2.1))) hstep, h1]
  refine ⟨_, rfl, h2, ?_⟩
  show (if iw then st'.total_time * (11 / 10) else st'.total_time) = _
  rw [h3]

/-- C4 witness: a wet three-stint plan (every compound substituted by the
INTERMEDIATE entry derived from HARD (1,0), giving flat lap time 4) with a
100-second pit constant and stint lengths 2,1,1: the cumulative sequence is
[0, 4, 8, 112, 216]—each of the two pits is folded into the last entry of
the stint following it—and the total is the pre-factor 216 times the wet
1.1 multiplier. -/
theorem C4_witness :
    ∃ a, (simulate_strategy [("T", [("Tm", [(Compound.HARD, ⟨1, 0⟩)])])] 100
        [("T", 4)] "T" "Tm" ⟨30, 1⟩
        [(Compound.SOFT, 2), (Compound.MEDIUM, 1), (Compound.HARD, 1)]).1
        = .ok a ∧
      a.cum_times = [0, 4, 8, 112, 216] ∧
      a.total_time = 216 * (11 / 10) := by
  obtain ⟨a, h1, h2, h3⟩ := C4_pit_folding
    [("T", [("Tm", [(Compound.HARD, ⟨1, 0⟩)])])] 100 [("T", 4)] "T" "Tm"
    ⟨30, 1⟩ true 1 (Compound.SOFT, 2, ⟨4, 0⟩)
    [(Compound.MEDIUM, 1, ⟨4, 0⟩), (Compound.HARD, 1, ⟨4, 0⟩)] 4
    rfl (by decide) (by norm_num) (by norm_num)
    (by
      intro y hy
      fin_cases hy <;>
        exact ⟨show some (⟨1 + 3, 0 * (3 / 2)⟩ : DegEntry) = some ⟨4, 0⟩ by
          norm_num, by norm_num⟩)
  refine ⟨a, h1, ?_, ?_⟩
  · rw [h2]
    norm_num [lapTimes, cumList, addToLast, pitCum, List.range_succ]
    norm_num [show ((2 : ℤ).toNat : ℚ) = 2 from by simp]
  · rw [h3]
    norm_num [lapTimes, pitTotal, List.range_succ]
    norm_num [show ((2 : ℤ).toNat : ℚ) = 2 from by simp]

/-- C4 counterexample: with two 2-lap stints of flat lap time 1 and a
100-second pit constant, the returned cumulative sequence is
[0, 1, 2, 3, 104]: the entry for the last lap of the completed first stint
(index 2) is 2, i.e. it does NOT contain the pit time; the pit is instead
folded into the last entry of the second stint. -/
theorem C4_counterexample :
    (simulate_strategy [("T", [("Tm", [(Compound.SOFT, ⟨1, 0⟩)])])] 100
        [("T", 4)] "T" "Tm" ⟨30, 0⟩
        [(Compound.SOFT, 2), (Compound.SOFT, 2)]).1 =
      .ok ⟨[2, 2], [0, 0], [1, 1], [0, 1, 2, 3, 104], 104⟩ := by
  rw [@simulate_run [("T", [("Tm", [(Compound.SOFT, ⟨1, 0⟩)])])] 100 [("T", 4)]
      "T" "Tm" ⟨30, 0⟩ [(Compound.SOFT, 2), (Compound.SOFT, 2)] 4 false 1
      rfl (by decide) (by norm_num) (by norm_num)]
  rw [@resolvedTeam_present [("T", [("Tm", [(Compound.SOFT, ⟨1, 0⟩)])])]
      "T" "Tm" [("Tm", [(Compound.SOFT, ⟨1, 0⟩)])] [(Compound.SOFT, ⟨1, 0⟩)]
      rfl rfl]
  rw [runStints_two [(Compound.SOFT, ⟨1, 0⟩)] false 1 100 Compound.SOFT
      Compound.SOFT 2 2 ⟨1, 0⟩ ⟨1, 0⟩ rfl rfl (by decide) (by decide)]
  norm_num [lapTimes, cumList, addToLast, List.range_succ]
  norm_num [show ((2 : ℤ).toNat : ℚ) = 2 from by simp]

theorem simStint_congr_comp (td : TeamData) (iw : Bool) (tf p : ℚ)
    {c c' : Compound} (n : ℤ) (st : SimState)
    (h : (if iw ∧ c ≠ Compound.INTERMEDIATE then Compound.INTERMEDIATE else c) =
         (if iw ∧ c' ≠ Compound.INTERMEDIATE then Compound.INTERMEDIATE else c')) :
    simStint td iw tf p c n st = simStint td iw tf p c' n st := by
  simp only [simStint]
  rw [h]

theorem simStint_wet_subst (td : TeamData) (tf p : ℚ) (c : Compound) (n : ℤ)
    (st : SimState) :
    simStint td true tf p c n st =
      simStint td true tf p Compound.INTERMEDIATE n st :=
  simStint_congr_comp td true tf p n st
    (by by_cases h : c = Compound.INTERMEDIATE <;> simp [h])

theorem simStint_inter_iw (td : TeamData) (iw iw' : Bool) (tf p : ℚ) (n : ℤ)
    (st : SimState) :
    simStint td iw tf p Compound.INTERMEDIATE n st =
      simStint td iw' tf p Compound.INTERMEDIATE n st := by
  simp only [simStint, ite_self]

theorem runStints_wet_subst (td : TeamData) (tf p : ℚ) :
    ∀ (s : Plan) (st : SimState),
      runStints td true tf p s st =
        runStints td true tf p (s.map (fun x => (Compound.INTERMEDIATE, x.2))) st
  | [], _ => rfl
  | (c, n) :: rest, st => by
    rw [List.map_cons]
    rw [runStints, runStints, simStint_wet_subst]
    cases simStint td true tf p Compound.INTERMEDIATE n st with
    | error e => rfl
    | ok st' => exact runStints_wet_subst td tf p rest st'

theorem runStints_inter_iw (td : TeamData) (iw iw' : Bool) (tf p : ℚ) :
    ∀ (s : Plan) (st : SimState), (∀ x ∈ s, x.1 = Compound.INTERMEDIATE) →
      runStints td iw tf p s st = runStints td iw' tf p s st
  | [], _, _ => rfl
  | (c, n) :: rest, st, hall => by
    have hc : c = Compound.INTERMEDIATE := hall (c, n) (List.mem_cons_self _ _)
    subst hc
    rw [runStints, runStints, simStint_inter_iw td iw iw' tf p n st]
    cases simStint td iw' tf p Compound.INTERMEDIATE n st with
    | error e => rfl
    | ok st' =>
      exact runStints_inter_iw td iw iw' tf p rest st'
        (fun x hx => hall x (List.mem_cons_of_mem _ hx))

theorem map_inter_snd_sum (s : Plan) :
    ((s.map (fun x => (Compound.INTERMEDIATE, x.2))).map Prod.snd).sum =
      (s.map Prod.snd).sum := by
  induction s with
  | nil => rfl
  | cons x xs ih => simp only [List.map_cons, List.sum_cons, ih]

theorem map_inter_all (s : Plan) :
    ∀ x ∈ s.map (fun x => (Compound.INTERMEDIATE, x.2)),
      x.1 = Compound.INTERMEDIATE := by
  intro x hx
  obtain ⟨y, _, rfl⟩ := List.mem_map.mp hx
  rfl

/-- C6 (amended): simulating any plan with `rain_prob = 0.5` is identical to
simulating the same plan with every stint's compound replaced by
`INTERMEDIATE` (the wet substitution), and its `totalTime` is exactly `1.1`
times the `totalTime` of THAT substituted plan simulated with `rain_prob = 0`
(for the original plan the 1.1 ratio holds only when its compounds are
already `INTERMEDIATE`; see the counterexample). -/
theorem C6_wet_substitution (deg : DegTable) (pit : ℚ)
    (reg : List (String × ℤ)) (track team : String) (temp : ℚ) (s : Plan) :
    (simulate_strategy deg pit reg track team ⟨temp, 1 / 2⟩ s =
       simulate_strategy deg pit reg track team ⟨temp, 1 / 2⟩
         (s.map (fun x => (Compound.INTERMEDIATE, x.2)))) ∧
    (∀ aw ad,
       (simulate_strategy deg pit reg track team ⟨temp, 1 / 2⟩ s).1 = .ok aw →
       (simulate_strategy deg pit reg track team ⟨temp, 0⟩
          (s.map (fun x => (Compound.INTERMEDIATE, x.2)))).1 = .ok ad →
       aw.total_time = (11 / 10) * ad.total_time) := by
  have hwet : decide ((3 : ℚ) / 10 < (Weather.mk temp (1 / 2)).rain_prob) = true := by
    norm_num
  have hdry : decide ((3 : ℚ) / 10 < (Weather.mk temp 0).rain_prob) = false := by
    norm_num
  constructor
  · cases hreg : reg.lookup track with
    | none => rw [simulate_noTrack hreg, simulate_noTrack hreg]
    | some L =>
      by_cases hsum : (s.map Prod.snd).sum = L
      · rw [simulate_run hreg hsum hwet rfl,
          simulate_run hreg (by rw [map_inter_snd_sum]; exact hsum) hwet rfl,
          runStints_wet_subst]
      · rw [simulate_invalid hreg hsum,
          simulate_invalid hreg (by rw [map_inter_snd_sum]; exact hsum)]
  · intro aw ad hw hd
    cases hreg : reg.lookup track with
    | none =>
      rw [simulate_noTrack hreg] at hw
      simp at hw
    | some L =>
      by_cases hsum : (s.map Prod.snd).sum = L
      · rw [simulate_run hreg hsum hwet rfl] at hw
        rw [simulate_run hreg (by rw [map_inter_snd_sum]; exact hsum) hdry rfl] at hd
        rw [runStints_wet_subst] at hw
        rw [runStints_inter_iw (resolvedTeam deg track team) true false
          (1 + max 0 (((Weather.mk temp (1 / 2)).track_temp - 30) / 100)) pit
          (s.map (fun x => (Compound.INTERMEDIATE, x.2))) initState
          (map_inter_all s)] at hw
        revert hw hd
        cases runStints (resolvedTeam deg track team) false
            (1 + max 0 (((Weather.mk temp (1 / 2)).track_temp - 30) / 100)) pit
            (s.map (fun x => (Compound.INTERMEDIATE, x.2))) initState with
        | error e =>
          intro hw
          simp at hw
        | ok st =>
          intro hw hd
          simp only [Except.ok.injEq] at hw hd
          rw [← hw, ← hd]
          simp [mul_comm]
      · rw [simulate_invalid hreg hsum] at hw
        simp at hw

/-- C6 witness: on an all-INTERMEDIATE single-stint plan the wet total is
exactly 1.1 times the dry total (4 × 1.1 = 22/5). -/
theorem C6_witness :
    ((⟨[4], [0], [4], [0, 4], 22 / 5⟩ : Analytics)).total_time =
      (11 / 10) * ((⟨[4], [0], [4], [0, 4], 4⟩ : Analytics)).total_time := by
  have h1 : (simulate_strategy
      [("T", [("Tm", [(Compound.HARD, ⟨1, 0⟩)])])] 22 [("T", 1)] "T" "Tm"
      ⟨30, 1 / 2⟩ [(Compound.INTERMEDIATE, 1)]).1 =
      .ok ⟨[4], [0], [4], [0, 4], 22 / 5⟩ := by
    rw [@simulate_run [("T", [("Tm", [(Compound.HARD, ⟨1, 0⟩)])])] 22 [("T", 1)]
        "T" "Tm" ⟨30, 1 / 2⟩ [(Compound.INTERMEDIATE, 1)] 1 true 1
        rfl (by decide) (by norm_num) (by norm_num)]
    rw [@resolvedTeam_present [("T", [("Tm", [(Compound.HARD, ⟨1, 0⟩)])])]
        "T" "Tm" [("Tm", [(Compound.HARD, ⟨1, 0⟩)])] [(Compound.HARD, ⟨1, 0⟩)]
        rfl rfl]
    rw [runStints_cons_ok []
      (simStint_some_first 1 22 initState
        (rfl : stintEntry [(Compound.HARD, ⟨1, 0⟩)]
          (if (true : Bool) ∧ Compound.INTERMEDIATE ≠ Compound.INTERMEDIATE
           then Compound.INTERMEDIATE else Compound.INTERMEDIATE) =
          some ⟨1 + 3, 0 * (3 / 2)⟩)
        (by decide) rfl), runStints_nil]
    norm_num [lapTimes, cumList, initState, List.range_succ, List.lookup,
      lookup_cons_self, lookup_cons_ne, beq_of_ne,
      show (Compound.HARD == Compound.SOFT) = false from rfl]
  have h2 : (simulate_strategy
      [("T", [("Tm", [(Compound.HARD, ⟨1, 0⟩)])])] 22 [("T", 1)] "T" "Tm"
      ⟨30, 0⟩ [(Compound.INTERMEDIATE, 1)]).1 =
      .ok ⟨[4], [0], [4], [0, 4], 4⟩ := by
    rw [@simulate_run [("T", [("Tm", [(Compound.HARD, ⟨1, 0⟩)])])] 22 [("T", 1)]
        "T" "Tm" ⟨30, 0⟩ [(Compound.INTERMEDIATE, 1)] 1 false 1
        rfl (by decide) (by norm_num) (by norm_num)]
    rw [@resolvedTeam_present [("T", [("Tm", [(Compound.HARD, ⟨1, 0⟩)])])]
        "T" "Tm" [("Tm", [(Compound.HARD, ⟨1, 0⟩)])] [(Compound.HARD, ⟨1, 0⟩)]
        rfl rfl]
    rw [runStints_cons_ok []
      (simStint_some_first 1 22 initState
        (rfl : stintEntry [(Compound.HARD, ⟨1, 0⟩)]
          (if (false : Bool) ∧ Compound.INTERMEDIATE ≠ Compound.INTERMEDIATE
           then Compound.INTERMEDIATE else Compound.INTERMEDIATE) =
          some ⟨1 + 3, 0 * (3 / 2)⟩)
        (by decide) rfl), runStints_nil]
    norm_num [lapTimes, cumList, initState, List.range_succ, List.lookup,
      lookup_cons_self, lookup_cons_ne, beq_of_ne,
      show (Compound.HARD == Compound.SOFT) = false from rfl]
  exact (C6_wet_substitution [("T", [("Tm", [(Compound.HARD, ⟨1, 0⟩)])])] 22
    [("T", 1)] "T" "Tm" 30 [(Compound.INTERMEDIATE, 1)]).2
    ⟨[4], [0], [4], [0, 4], 22 / 5⟩ ⟨[4], [0], [4], [0, 4], 4⟩ h1 h2

/-- C6 counterexample: a SOFT plan whose SOFT entry differs from the derived
INTERMEDIATE entry: wet total is 22/5 while the dry total of the same plan is
1, and 22/5 is not 1.1 times 1 — the 1.1 ratio does not relate a plan's wet
simulation to ITS OWN dry simulation. -/
theorem C6_counterexample :
    (simulate_strategy
        [("T", [("Tm", [(Compound.SOFT, ⟨1, 0⟩), (Compound.HARD, ⟨1, 0⟩)])])]
        22 [("T", 1)] "T" "Tm" ⟨30, 1 / 2⟩ [(Compound.SOFT, 1)]).1 =
      .ok ⟨[4], [0], [4], [0, 4], 22 / 5⟩ ∧
    (simulate_strategy
        [("T", [("Tm", [(Compound.SOFT, ⟨1, 0⟩), (Compound.HARD, ⟨1, 0⟩)])])]
        22 [("T", 1)] "T" "Tm" ⟨30, 0⟩ [(Compound.SOFT, 1)]).1 =
      .ok ⟨[1], [0], [1], [0, 1], 1⟩ ∧
    (22 / 5 : ℚ) ≠ (11 / 10) * 1 := by
  refine ⟨?_, ?_, by norm_num⟩
  · rw [@simulate_run
        [("T", [("Tm", [(Compound.SOFT, ⟨1, 0⟩), (Compound.HARD, ⟨1, 0⟩)])])]
        22 [("T", 1)] "T" "Tm" ⟨30, 1 / 2⟩ [(Compound.SOFT, 1)] 1 true 1
        rfl (by decide) (by norm_num) (by norm_num)]
    rw [@resolvedTeam_present
        [("T", [("Tm", [(Compound.SOFT, ⟨1, 0⟩), (Compound.HARD, ⟨1, 0⟩)])])]
        "T" "Tm" [("Tm", [(Compound.SOFT, ⟨1, 0⟩), (Compound.HARD, ⟨1, 0⟩)])]
        [(Compound.SOFT, ⟨1, 0⟩), (Compound.HARD, ⟨1, 0⟩)] rfl rfl]
    rw [runStints_cons_ok []
      (simStint_some_first 1 22 initState
        (rfl : stintEntry [(Compound.SOFT, ⟨1, 0⟩), (Compound.HARD, ⟨1, 0⟩)]
          (if (true : Bool) ∧ Compound.SOFT ≠ Compound.INTERMEDIATE
           then Compound.INTERMEDIATE else Compound.SOFT) =
          some ⟨1 + 3, 0 * (3 / 2)⟩)
        (by decide) rfl), runStints_nil]
    norm_num [lapTimes, cumList, initState, List.range_succ, List.lookup,
      lookup_cons_self, lookup_cons_ne, beq_of_ne,
      show (Compound.HARD == Compound.SOFT) = false from rfl]
  · rw [@simulate_run
        [("T", [("Tm", [(Compound.SOFT, ⟨1, 0⟩), (Compound.HARD, ⟨1, 0⟩)])])]
        22 [("T", 1)] "T" "Tm" ⟨30, 0⟩ [(Compound.SOFT, 1)] 1 false 1
        rfl (by decide) (by norm_num) (by norm_num)]
    rw [@resolvedTeam_present
        [("T", [("Tm", [(Compound.SOFT, ⟨1, 0⟩), (Compound.HARD, ⟨1, 0⟩)])])]
        "T" "Tm" [("Tm", [(Compound.SOFT, ⟨1, 0⟩), (Compound.HARD, ⟨1, 0⟩)])]
        [(Compound.SOFT, ⟨1, 0⟩), (Compound.HARD, ⟨1, 0⟩)] rfl rfl]
    rw [runStints_cons_ok []
      (simStint_some_first 1 22 initState
        (rfl : stintEntry [(Compound.SOFT, ⟨1, 0⟩), (Compound.HARD, ⟨1, 0⟩)]
          (if (false : Bool) ∧ Compound.SOFT ≠ Compound.INTERMEDIATE
           then Compound.INTERMEDIATE else Compound.SOFT) =
          some ⟨1, 0⟩)
        (by decide) rfl), runStints_nil]
    norm_num [lapTimes, cumList, initState, List.range_succ, List.lookup,
      lookup_cons_self, lookup_cons_ne, beq_of_ne,
      show (Compound.HARD == Compound.SOFT) = false from rfl]

theorem candidates_valid (L : ℤ) (hL : 30 ≤ L) :
    ∀ c ∈ candidates L, ((c.map Prod.snd).sum = L) ∧ ∀ st ∈ c, 10 ≤ st.2 := by
  intro c hc
  simp only [candidates, List.mem_cons, List.not_mem_nil, or_false] at hc
  have h1 : 10 ≤ s1 L ∧ s1 L ≤ L - 10 := by
    rw [s1]; constructor <;> omega
  have h2 : 10 ≤ s2 L ∧ s2 L ≤ L - 10 := by
    rw [s2]; constructor <;> omega
  have h3 : 10 ≤ s3 L ∧ s3 L ≤ L - 20 := by
    rw [s3]; constructor <;> omega
  have h4 : 10 ≤ s4 L ∧ s4 L ≤ L - s3 L - 10 := by
    rw [s4]; constructor <;> omega
  have h6 : 10 ≤ s6 L ∧ s6 L ≤ L - 20 := by
    rw [s6]; constructor <;> omega
  have h7 : 10 ≤ s7 L ∧ s7 L ≤ L - s6 L - 10 := by
    rw [s7]; constructor <;> omega
  have h9 : 10 ≤ s9 L ∧ s9 L ≤ L - 20 := by
    rw [s9]; constructor <;> omega
  have h10 : 10 ≤ s10 L ∧ s10 L ≤ L - s9 L - 10 := by
    rw [s10]; constructor <;> omega
  have h12 : 10 ≤ s12 L ∧ s12 L ≤ L - 20 := by
    rw [s12]; constructor <;> omega
  have h13 : 10 ≤ s13 L ∧ s13 L ≤ L - s12 L - 10 := by
    rw [s13]; constructor <;> omega
  rcases hc with rfl | rfl | rfl | rfl | rfl | rfl <;>
    refine ⟨by
      simp only [List.map_cons, List.map_nil, List.sum_cons, List.sum_nil,
        s5, s8, s11, s14]
      ring, ?_⟩ <;>
    · intro st hst
      simp only [List.mem_cons, List.not_mem_nil, or_false] at hst
      rcases hst with rfl | rfl | rfl <;>
        simp only [s5, s8, s11, s14] <;> omega

/-- C8: for every total lap count in the static registry, every candidate
plan in the optimizer's fixed menu sums exactly to the total lap count and
every individual stint has at least 10 laps. -/
theorem C8_candidates (track : String) (L : ℤ)
    (hmem : (track, L) ∈ TRACK_LAPS) :
    ∀ c ∈ candidates L, ((c.map Prod.snd).sum = L) ∧ ∀ st ∈ c, 10 ≤ st.2 := by
  have h30 : ∀ p ∈ TRACK_LAPS, (30 : ℤ) ≤ p.2 := by decide
  exact candidates_valid L (h30 (track, L) hmem)

/-- C8 witness: Bahrain's 57 laps—the first candidate sums to 57 and both of
its stints have at least 10 laps. -/
theorem C8_witness :
    (([(Compound.SOFT, s1 57), (Compound.HARD, 57 - s1 57)] : Plan).map
        Prod.snd).sum = 57 ∧
    10 ≤ s1 57 :=
  have h := C8_candidates "Bahrain" 57 (by decide)
    [(Compound.SOFT, s1 57), (Compound.HARD, 57 - s1 57)]
    (by simp [candidates])
  ⟨h.1, h.2 (Compound.SOFT, s1 57) (by simp)⟩

/-! ### List lemmas for the cumulative-sequence invariants -/

theorem addToLast_length (x : ℚ) : ∀ l : List ℚ, (addToLast l x).length = l.length
  | [] => rfl
  | [_] => rfl
  | a :: b :: rest => by
    rw [show addToLast (a :: b :: rest) x = a :: addToLast (b :: rest) x from rfl]
    simp [addToLast_length x (b :: rest)]

theorem addToLast_getLastD (x : ℚ) :
    ∀ (l : List ℚ) (d : ℚ), l ≠ [] →
      (addToLast l x).getLastD d = l.getLastD d + x
  | [], _, h => absurd rfl h
  | [a], d, _ => by simp [addToLast]
  | a :: b :: rest, d, _ => by
    rw [show addToLast (a :: b :: rest) x = a :: addToLast (b :: rest) x from rfl,
      List.getLastD_cons, List.getLastD_cons]
    exact addToLast_getLastD x (b :: rest) a (by simp)

theorem addToLast_chain (x : ℚ) (hx : 0 ≤ x) :
    ∀ l : List ℚ, List.Chain' (· ≤ ·) l → List.Chain' (· ≤ ·) (addToLast l x)
  | [], _ => by simp [addToLast]
  | [_], _ => by simp [addToLast]
  | a :: b :: rest, h => by
    rw [show addToLast (a :: b :: rest) x = a :: addToLast (b :: rest) x from rfl]
    have h1 := (List.chain'_cons.mp h).1
    have h2 := (List.chain'_cons.mp h).2
    cases rest with
    | nil =>
      simp only [addToLast]
      exact List.chain'_cons.mpr ⟨by linarith, List.chain'_singleton _⟩
    | cons u us =>
      have hrec := addToLast_chain x hx (b :: u :: us) h2
      rw [show addToLast (b :: u :: us) x = b :: addToLast (u :: us) x from rfl] at hrec ⊢
      exact List.chain'_cons.mpr ⟨h1, hrec⟩

theorem chain'_of_chain {R : ℚ → ℚ → Prop} {a : ℚ} :
    ∀ {l : List ℚ}, List.Chain R a l → List.Chain' R l
  | [], _ => trivial
  | _ :: _, h => (List.chain_cons.mp h).2

theorem getLast?_cons_getLastD (a : ℚ) :
    ∀ l : List ℚ, (a :: l).getLast? = some ((a :: l).getLastD 0)
  | [] => rfl
  | b :: bs => by
    rw [List.getLastD_cons, List.getLast?_cons_cons]
    exact getLast?_cons_getLastD b bs

theorem cumList_getLastD (t : ℚ) :
    ∀ (ts : List ℚ) (s d : ℚ),
      (cumList s (t :: ts)).getLastD d = s + (t :: ts).sum := by
  intro ts
  induction ts generalizing t with
  | nil => intro s d; simp [cumList]
  | cons u us ih =>
    intro s d
    rw [show cumList s (t :: u :: us) = (s + t) :: cumList (s + t) (u :: us) from rfl,
      List.getLastD_cons, ih u (s + t) (s + t)]
    simp only [List.sum_cons]
    ring

theorem cumList_head_le {l : List ℚ} (hl : ∀ x ∈ l, 0 ≤ x) (s : ℚ) :
    ∀ y ∈ (cumList s l).head?, s ≤ y := by
  cases l with
  | nil => simp [cumList]
  | cons t ts =>
    intro y hy
    rw [show cumList s (t :: ts) = (s + t) :: cumList (s + t) ts from rfl] at hy
    simp only [List.head?_cons, Option.mem_def, Option.some.injEq] at hy
    have := hl t (List.mem_cons_self _ _)
    linarith [hy ▸ (by linarith : s ≤ s + t)]

theorem lapTimes_nonneg {b s' : ℚ} (hb : 0 ≤ b) (hs : 0 ≤ s') (n : ℤ) :
    ∀ x ∈ lapTimes b s' n, 0 ≤ x := by
  intro x hx
  rw [lapTimes] at hx
  obtain ⟨j, _, rfl⟩ := List.mem_map.mp hx
  positivity

theorem stintEntry_nonneg {td : TeamData}
    (hent : ∀ q ∈ td, 0 ≤ (Prod.snd q).base ∧ 0 ≤ (Prod.snd q).slope)
    {c : Compound} {e : DegEntry} (hse : stintEntry td c = some e) :
    0 ≤ e.base ∧ 0 ≤ e.slope := by
  rw [stintEntry] at hse
  by_cases hc : c = Compound.INTERMEDIATE
  · rw [if_pos hc] at hse
    simp only [Option.some.injEq] at hse
    cases hh : td.lookup Compound.HARD with
    | none =>
      rw [hh] at hse
      subst hse
      norm_num
    | some eh =>
      rw [hh] at hse
      subst hse
      have := hent (Compound.HARD, eh) (lookup_mem hh)
      exact ⟨by linarith [this.1], mul_nonneg this.2 (by norm_num)⟩
  · rw [if_neg hc] at hse
    exact hent (c, e) (lookup_mem hse)

theorem sum_int_nonneg_toNat :
    ∀ l : List ℤ, (∀ x ∈ l, 0 ≤ x) → ((l.map Int.toNat).sum : ℤ) = l.sum
  | [], _ => rfl
  | x :: xs, h => by
    simp only [List.map_cons, List.sum_cons]
    have h1 := h x (List.mem_cons_self _ _)
    have h2 := sum_int_nonneg_toNat xs (fun y hy => h y (List.mem_cons_of_mem _ hy))
    push_cast at h2 ⊢
    omega

theorem getLastD_append (b : ℚ) (bs : List ℚ) :
    ∀ (A : List ℚ) (d : ℚ), (A ++ b :: bs).getLastD d = (b :: bs).getLastD d
  | [], _ => rfl
  | a :: as, d => by
    rw [List.cons_append, List.getLastD_cons]
    exact getLastD_append b bs as a

theorem runStints_invariant (td : TeamData) (iw : Bool) (tf pit : ℚ)
    (hpit : 0 ≤ pit) (htf : 0 ≤ tf)
    (hent : ∀ q ∈ td, 0 ≤ (Prod.snd q).base ∧ 0 ≤ (Prod.snd q).slope) :
    ∀ (s : Plan) (st st' : SimState),
      (∀ x ∈ s, 0 < x.2) →
      runStints td iw tf pit s st = .ok st' →
      (∃ tl, st.cum_times = 0 :: tl) →
      List.Chain' (· ≤ ·) st.cum_times →
      st.cum_times.getLastD 0 = st.current_cum →
      st.total_time = st.current_cum →
      ((∃ tl, st'.cum_times = 0 :: tl) ∧
       List.Chain' (· ≤ ·) st'.cum_times ∧
       st'.cum_times.getLastD 0 = st'.current_cum ∧
       st'.total_time = st'.current_cum ∧
       (st'.cum_times.length : ℤ) = st.cum_times.length + (s.map Prod.snd).sum)
  | [], st, st', _, hrun, hhead, hchain, hlast, htot => by
    rw [runStints_nil] at hrun
    obtain rfl : st = st' := by
      injection hrun
    exact ⟨hhead, hchain, hlast, htot, by simp⟩
  | (c, n) :: rest, st, st', hpos, hrun, hhead, hchain, hlast, htot => by
    cases hse : stintEntry td
        (if iw ∧ c ≠ Compound.INTERMEDIATE then Compound.INTERMEDIATE else c) with
    | none =>
      rw [runStints_cons_err rest (simStint_none tf pit n st hse)] at hrun
      exact absurd hrun (by simp)
    | some e =>
      have hn0 : 0 < n := hpos (c, n) (List.mem_cons_self _ _)
      have hn : n ≠ 0 := by omega
      have henn := stintEntry_nonneg hent hse
      obtain ⟨tl, hcum⟩ := hhead
      have hlt_nn : ∀ x ∈ lapTimes e.base (e.slope * tf) n, 0 ≤ x :=
        lapTimes_nonneg henn.1 (mul_nonneg henn.2 htf) n
      have hlt_ne : lapTimes e.base (e.slope * tf) n ≠ [] :=
        lapTimes_ne_nil _ _ hn0
      obtain ⟨t0, lts, hltcons⟩ :
          ∃ t0 lts, lapTimes e.base (e.slope * tf) n = t0 :: lts := by
        cases hx : lapTimes e.base (e.slope * tf) n with
        | nil => exact absurd hx hlt_ne
        | cons a l => exact ⟨a, l, rfl⟩
      have hchainB : List.Chain' (· ≤ ·)
          (cumList st.current_cum (lapTimes e.base (e.slope * tf) n)) :=
        chain'_of_chain (cumList_chain _ hlt_nn _)
      have hbound : ∀ x ∈ st.cum_times.getLast?,
          ∀ y ∈ (cumList st.current_cum (lapTimes e.base (e.slope * tf) n)).head?,
            x ≤ y := by
        intro x hx y hy
        rw [hcum, getLast?_cons_getLastD, ← hcum, hlast] at hx
        simp only [Option.mem_def, Option.some.injEq] at hx
        subst hx
        exact cumList_head_le hlt_nn st.current_cum y hy
      have hchain2 : List.Chain' (· ≤ ·)
          (st.cum_times ++ cumList st.current_cum (lapTimes e.base (e.slope * tf) n)) :=
        List.chain'_append.mpr ⟨hchain, hchainB, hbound⟩
      have hlast2 : (st.cum_times ++
            cumList st.current_cum (lapTimes e.base (e.slope * tf) n)).getLastD 0 =
          st.current_cum + (lapTimes e.base (e.slope * tf) n).sum := by
        rw [hltcons]
        rw [show cumList st.current_cum (t0 :: lts) =
          (st.current_cum + t0) :: cumList (st.current_cum + t0) lts from rfl]
        rw [getLastD_append]
        rw [show (st.current_cum + t0) :: cumList (st.current_cum + t0) lts =
          cumList st.current_cum (t0 :: lts) from rfl]
        exact cumList_getLastD t0 lts st.current_cum 0
      have hlen2 : ((st.cum_times ++
            cumList st.current_cum (lapTimes e.base (e.slope * tf) n)).length : ℤ) =
          st.cum_times.length + n := by
        rw [List.length_append, cumList_length, lapTimes_length]
        push_cast
        omega
      have hheadB : ∃ tl2, (st.cum_times ++
          cumList st.current_cum (lapTimes e.base (e.slope * tf) n)) = 0 :: tl2 := by
        rw [hcum]
        exact ⟨_, rfl⟩
      cases hfd : st.first_done with
      | false =>
        rw [runStints_cons_ok rest (simStint_some_first tf pit st hse hn hfd)] at hrun
        obtain ⟨ih1, ih2, ih3, ih4, ih5⟩ :=
          runStints_invariant td iw tf pit hpit htf hent rest _ st'
            (fun x hx => hpos x (List.mem_cons_of_mem _ hx)) hrun
            hheadB hchain2 hlast2 (by rw [htot])
        refine ⟨ih1, ih2, ih3, ih4, ?_⟩
        rw [ih5, hlen2]
        simp only [List.map_cons, List.sum_cons]
        ring
      | true =>
        rw [runStints_cons_ok rest (simStint_some_pit tf pit st hse hn hfd)] at hrun
        have hne2 : (st.cum_times ++
            cumList st.current_cum (lapTimes e.base (e.slope * tf) n)) ≠ [] := by
          obtain ⟨tl2, h2⟩ := hheadB
          rw [h2]
          exact List.cons_ne_nil _ _
        obtain ⟨ih1, ih2, ih3, ih4, ih5⟩ :=
          runStints_invariant td iw tf pit hpit htf hent rest _ st'
            (fun x hx => hpos x (List.mem_cons_of_mem _ hx)) hrun
            (by
              obtain ⟨tl2, h2⟩ := hheadB
              rw [h2]
              cases htl2 : tl2 with
              | nil =>
                rw [htl2] at h2
                have : (1 : ℤ) = st.cum_times.length + n := by
                  have := hlen2
                  rw [h2] at this
                  simpa using this
                have hlc : 1 ≤ st.cum_times.length := by
                  rw [hcum]
                  simp
                omega
              | cons u us =>
                exact ⟨_, rfl⟩)
            (addToLast_chain pit hpit _ hchain2)
            (by
              rw [addToLast_getLastD pit _ 0 hne2, hlast2])
            (by rw [htot])
        refine ⟨ih1, ih2, ih3, ih4, ?_⟩
        rw [ih5, addToLast_length, hlen2]
        simp only [List.map_cons, List.sum_cons]
        ring

/-- C9: for a valid plan with positive stint lengths, non-negative resolved
entries and a non-negative pit constant, the returned cumulative sequence has
length totalLaps+1, starts at 0, is non-decreasing, and its last element is
the pre-multiplier running total: it equals `totalTime` in a dry race, and
`totalTime` is 1.1 times it in a wet race. -/
theorem C9_cum_invariants (deg : DegTable) (pit : ℚ)
    (reg : List (String × ℤ)) (track team : String) (w : Weather) (s : Plan)
    (L : ℤ) (a : Analytics)
    (hpit : 0 ≤ pit)
    (hL : reg.lookup track = some L)
    (hpos : ∀ x ∈ s, 0 < x.2)
    (hent : ∀ q ∈ resolvedTeam deg track team,
      0 ≤ (Prod.snd q).base ∧ 0 ≤ (Prod.snd q).slope)
    (hok : (simulate_strategy deg pit reg track team w s).1 = .ok a) :
    a.cum_times.length = L.toNat + 1 ∧
    a.cum_times.head? = some 0 ∧
    List.Chain' (· ≤ ·) a.cum_times ∧
    (¬ ((3 : ℚ) / 10 < w.rain_prob) →
      a.total_time = a.cum_times.getLastD 0) ∧
    (((3 : ℚ) / 10 < w.rain_prob) →
      a.total_time = a.cum_times.getLastD 0 * (11 / 10)) := by
  by_cases hsum : (s.map Prod.snd).sum = L
  · rw [simulate_run hL hsum rfl rfl] at hok
    have htf : (0 : ℚ) ≤ 1 + max 0 ((w.track_temp - 30) / 100) := by
      have := le_max_left (0 : ℚ) ((w.track_temp - 30) / 100)
      linarith
    cases hr : runStints (resolvedTeam deg track team)
        (decide ((3 : ℚ) / 10 < w.rain_prob))
        (1 + max 0 ((w.track_temp - 30) / 100)) pit s initState with
    | error e =>
      rw [hr] at hok
      simp at hok
    | ok st =>
      rw [hr] at hok
      simp only [Except.ok.injEq] at hok
      obtain ⟨⟨tl, hct⟩, hchain, hlastd, htotal, hlen⟩ :=
        runStints_invariant (resolvedTeam deg track team)
          (decide ((3 : ℚ) / 10 < w.rain_prob))
          (1 + max 0 ((w.track_temp - 30) / 100)) pit hpit htf hent s
          initState st hpos hr ⟨[], rfl⟩ (List.chain'_singleton _) rfl rfl
      subst hok
      refine ⟨?_, ?_, hchain, ?_, ?_⟩
      · show st.cum_times.length = L.toNat + 1
        rw [hsum] at hlen
        have h2 : (st.cum_times.length : ℤ) = 1 + L := by
          simpa [initState] using hlen
        have hL0 : 0 ≤ L := by
          rw [← hsum]
          refine List.sum_nonneg ?_
          intro x hx
          obtain ⟨y, hy, rfl⟩ := List.mem_map.mp hx
          exact le_of_lt (hpos y hy)
        omega
      · show st.cum_times.head? = some 0
        rw [hct]
        rfl
      · intro hdry
        show (if decide ((3 : ℚ) / 10 < w.rain_prob) = true
              then st.total_time * (11 / 10) else st.total_time) =
          st.cum_times.getLastD 0
        rw [decide_eq_false hdry]
        simp only [Bool.false_eq_true, if_false]
        rw [htotal, hlastd]
      · intro hwet
        show (if decide ((3 : ℚ) / 10 < w.rain_prob) = true
              then st.total_time * (11 / 10) else st.total_time) =
          st.cum_times.getLastD 0 * (11 / 10)
        rw [decide_eq_true hwet]
        simp only [if_true]
        rw [htotal, hlastd]
  · rw [simulate_invalid hL hsum] at hok
    simp at hok

/-- C9 witness: a single 2-lap SOFT stint with base 1 and slope 0 in dry
weather yields cumulative sequence [0, 1, 2] of length 2+1, starting at 0,
non-decreasing, with last element equal to the total time 2. -/
theorem C9_witness :
    ((⟨[2], [0], [1], [0, 1, 2], 2⟩ : Analytics)).cum_times.length =
      (2 : ℤ).toNat + 1 ∧
    (⟨[2], [0], [1], [0, 1, 2], 2⟩ : Analytics).cum_times.head? = some 0 ∧
    List.Chain' (· ≤ ·)
      (⟨[2], [0], [1], [0, 1, 2], 2⟩ : Analytics).cum_times ∧
    (¬ ((3 : ℚ) / 10 < (Weather.mk 30 0).rain_prob) →
      (⟨[2], [0], [1], [0, 1, 2], 2⟩ : Analytics).total_time =
        (⟨[2], [0], [1], [0, 1, 2], 2⟩ : Analytics).cum_times.getLastD 0) ∧
    (((3 : ℚ) / 10 < (Weather.mk 30 0).rain_prob) →
      (⟨[2], [0], [1], [0, 1, 2], 2⟩ : Analytics).total_time =
        (⟨[2], [0], [1], [0, 1, 2], 2⟩ : Analytics).cum_times.getLastD 0 *
          (11 / 10)) := by
  have hres : resolvedTeam [("T", [("Tm", [(Compound.SOFT, ⟨1, 0⟩)])])]
      "T" "Tm" = [(Compound.SOFT, ⟨1, 0⟩)] :=
    @resolvedTeam_present [("T", [("Tm", [(Compound.SOFT, ⟨1, 0⟩)])])]
      "T" "Tm" [("Tm", [(Compound.SOFT, ⟨1, 0⟩)])] [(Compound.SOFT, ⟨1, 0⟩)]
      rfl rfl
  have hok : (simulate_strategy [("T", [(("Tm" : String),
      [(Compound.SOFT, (⟨1, 0⟩ : DegEntry))])])] 22 [("T", 2)] "T" "Tm"
      ⟨30, 0⟩ [(Compound.SOFT, 2)]).1 = .ok ⟨[2], [0], [1], [0, 1, 2], 2⟩ := by
    rw [@simulate_run [("T", [("Tm", [(Compound.SOFT, ⟨1, 0⟩)])])] 22
        [("T", 2)] "T" "Tm" ⟨30, 0⟩ [(Compound.SOFT, 2)] 2 false 1
        rfl (by decide) (by norm_num) (by norm_num)]
    rw [hres]
    rw [runStints_cons_ok []
      (simStint_some_first 1 22 initState
        (rfl : stintEntry [(Compound.SOFT, ⟨1, 0⟩)]
          (if (false : Bool) ∧ Compound.SOFT ≠ Compound.INTERMEDIATE
           then Compound.INTERMEDIATE else Compound.SOFT) =
          some ⟨1, 0⟩)
        (by decide) rfl), runStints_nil]
    norm_num [lapTimes, cumList, initState, List.range_succ, List.lookup,
      lookup_cons_self, lookup_cons_ne, beq_of_ne,
      show (Compound.HARD == Compound.SOFT) = false from rfl,
      show ((2 : ℤ).toNat : ℚ) = 2 from by simp]
  exact C9_cum_invariants [("T", [("Tm", [(Compound.SOFT, ⟨1, 0⟩)])])] 22
    [("T", 2)] "T" "Tm" ⟨30, 0⟩ [(Compound.SOFT, 2)] 2
    ⟨[2], [0], [1], [0, 1, 2], 2⟩ (by norm_num) rfl (by decide)
    (by
      rw [hres]
      intro q hq
      simp only [List.mem_singleton] at hq
      subst hq
      norm_num)
    hok

/-! ### Lemmas for `optimize_strategy` -/

theorem updateTable_lookup {deg : DegTable} {track : String} {td0 : TrackData}
    (X : TrackData) (h : deg.lookup track = some td0) :
    (updateTable deg track X).lookup track = some X := by
  induction deg with
  | nil => simp [List.lookup] at h
  | cons p rest ih =>
    obtain ⟨k, v⟩ := p
    rw [List.lookup] at h
    by_cases hk : k = track
    · subst hk
      rw [updateTable, List.map_cons]
      rw [if_pos rfl]
      exact lookup_cons_self _ _ _
    · rw [updateTable, List.map_cons, if_neg (by simp [hk])]
      have hne : (track == k) = false := beq_of_ne (fun hh => hk (hh ▸ rfl))
      rw [hne] at h
      rw [show List.lookup track ((k, v) ::
        List.map (fun p => if p.1 = track then (track, X) else p) rest) =
        List.lookup track
          (List.map (fun p => if p.1 = track then (track, X) else p) rest) from by
          rw [List.lookup, hne]]
      exact ih h

theorem simulate_preserves_resolvedTeam (deg : DegTable) (pit : ℚ)
    (reg : List (String × ℤ)) (track team : String) (w : Weather) (s : Plan) :
    resolvedTeam (simulate_strategy deg pit reg track team w s).2 track team =
      resolvedTeam deg track team := by
  have htbl : (simulate_strategy deg pit reg track team w s).2 = deg ∨
      (∃ td, deg.lookup track = some td ∧ td.lookup team = none ∧
        (simulate_strategy deg pit reg track team w s).2 =
          updateTable deg track (td ++ [(team, teamFallback td)])) := by
    cases hreg : reg.lookup track with
    | none => left; rw [simulate_noTrack hreg]
    | some L =>
      by_cases hs : (s.map Prod.snd).sum = L
      · cases htr : deg.lookup track with
        | none =>
          left
          rw [simulate_run hreg hs rfl rfl]
          show (resolveTrackData deg track team).2 = deg
          by_cases hother : team = "Other"
          · subst hother
            rw [resolveTrackData_track_absent_other htr]
          · rw [resolveTrackData_track_absent htr hother]
        | some td =>
          cases hteam : td.lookup team with
          | some tmd =>
            left
            rw [simulate_run hreg hs rfl rfl]
            show (resolveTrackData deg track team).2 = deg
            rw [resolveTrackData_team_present htr (by rw [hteam]; rfl)]
          | none =>
            right
            refine ⟨td, rfl, hteam, ?_⟩
            rw [simulate_run hreg hs rfl rfl]
            show (resolveTrackData deg track team).2 = _
            rw [resolveTrackData_team_absent htr hteam]
      · left
        rw [simulate_invalid hreg hs]
  rcases htbl with heq | ⟨td, htr, hteam, heq⟩
  · rw [heq]
  · rw [heq]
    have hlk : (updateTable deg track (td ++ [(team, teamFallback td)])).lookup
        track = some (td ++ [(team, teamFallback td)]) :=
      updateTable_lookup _ htr
    have hlk2 : (td ++ [(team, teamFallback td)]).lookup team =
        some (teamFallback td) := by
      rw [lookup_append_of_none hteam]
      exact lookup_cons_self _ _ _
    rw [resolvedTeam_present hlk hlk2, resolvedTeam_team_absent htr hteam]

theorem optStep_snd (pit : ℚ) (reg : List (String × ℤ)) (track team : String)
    (w : Weather) (acc : Option (Plan × ℚ × Analytics) × DegTable)
    (strat : Plan) :
    (optStep pit reg track team w acc strat).2 =
      (simulate_strategy acc.2 pit reg track team w strat).2 := by
  simp only [optStep]
  cases (simulate_strategy acc.2 pit reg track team w strat).1 with
  | error e => rfl
  | ok a =>
    cases acc.1 with
    | none => rfl
    | some b =>
      obtain ⟨bs, bt, ba⟩ := b
      by_cases hlt : a.total_time < bt <;> simp [hlt]

theorem foldl_optStep_resolvedTeam (pit : ℚ) (reg : List (String × ℤ))
    (track team : String) (w : Weather) :
    ∀ (cands : List Plan) (acc : Option (Plan × ℚ × Analytics) × DegTable),
      resolvedTeam (cands.foldl (optStep pit reg track team w) acc).2
          track team =
        resolvedTeam acc.2 track team
  | [], acc => rfl
  | strat :: rest, acc => by
    rw [List.foldl_cons]
    rw [foldl_optStep_resolvedTeam pit reg track team w rest
      (optStep pit reg track team w acc strat)]
    rw [optStep_snd]
    exact simulate_preserves_resolvedTeam acc.2 pit reg track team w strat

theorem simulate_medium_ok (deg : DegTable) (pit : ℚ)
    (reg : List (String × ℤ)) (track team : String) (w : Weather) (L : ℤ)
    (hL : reg.lookup track = some L) (hL0 : L ≠ 0)
    (hmed : ((resolvedTeam deg track team).lookup Compound.MEDIUM).isSome) :
    ∃ a, (simulate_strategy deg pit reg track team w
      [(Compound.MEDIUM, L)]).1 = .ok a := by
  have hse : ∃ e, stintEntry (resolvedTeam deg track team)
      (if decide ((3 : ℚ) / 10 < w.rain_prob) ∧
          Compound.MEDIUM ≠ Compound.INTERMEDIATE
       then Compound.INTERMEDIATE else Compound.MEDIUM) = some e := by
    cases hdec : decide ((3 : ℚ) / 10 < w.rain_prob) with
    | true =>
      refine ⟨interEntry (resolvedTeam deg track team), ?_⟩
      rw [show (if (true : Bool) ∧ Compound.MEDIUM ≠ Compound.INTERMEDIATE
           then Compound.INTERMEDIATE else Compound.MEDIUM) =
          Compound.INTERMEDIATE from by simp]
      exact stintEntry_inter _
    | false =>
      obtain ⟨e, he⟩ := Option.isSome_iff_exists.mp hmed
      refine ⟨e, ?_⟩
      rw [effComp_dry]
      rw [stintEntry, if_neg (by simp)]
      exact he
  obtain ⟨e, he⟩ := hse
  rw [simulate_run hL (by simp) rfl rfl]
  rw [runStints_cons_ok [] (simStint_some_first
    (1 + max 0 ((w.track_temp - 30) / 100)) pit initState he hL0 rfl),
    runStints_nil]
  exact ⟨_, rfl⟩

/-- C5 (amended): `optimize_strategy` returns a result (never raises) for
every registered track with a nonzero lap count whenever the resolved team
data contains a MEDIUM entry (which the fallback plan needs in dry weather);
with no MEDIUM resolvable, even the fallback raises—see the counterexample. -/
theorem C5_optimize_ok (deg : DegTable) (pit : ℚ) (reg : List (String × ℤ))
    (track team : String) (w : Weather) (L : ℤ)
    (hL : reg.lookup track = some L) (hL0 : L ≠ 0)
    (hmed : ((resolvedTeam deg track team).lookup Compound.MEDIUM).isSome) :
    ∃ r, (optimize_strategy deg pit reg track team w).1 = .ok r := by
  simp only [optimize_strategy, hL]
  cases hbest : ((candidates L).foldl (optStep pit reg track team w)
      (none, deg)).1 with
  | some b =>
    obtain ⟨bs, bt, ba⟩ := b
    exact ⟨_, rfl⟩
  | none =>
    have hpres := foldl_optStep_resolvedTeam pit reg track team w
      (candidates L) (none, deg)
    obtain ⟨a, ha⟩ := simulate_medium_ok
      ((candidates L).foldl (optStep pit reg track team w) (none, deg)).2
      pit reg track team w L hL hL0 (by rw [hpres]; exact hmed)
    rw [ha]
    exact ⟨_, rfl⟩

/-- C5 witness: with Monza present and Ferrari holding a MEDIUM entry, the
optimizer returns a result. -/
theorem C5_witness :
    ∃ r, (optimize_strategy
      [("Monza", [("Ferrari", [(Compound.MEDIUM, ⟨90, 1⟩)])])] 22
      [("Monza", 53)] "Monza" "Ferrari" ⟨30, 0⟩).1 = .ok r :=
  C5_optimize_ok [("Monza", [("Ferrari", [(Compound.MEDIUM, ⟨90, 1⟩)])])] 22
    [("Monza", 53)] "Monza" "Ferrari" ⟨30, 0⟩ 53 rfl (by decide) (by decide)

theorem simulate_first_stint_fails {deg : DegTable} {pit : ℚ}
    {reg : List (String × ℤ)} {track team : String} {w : Weather}
    {c : Compound} {n : ℤ} {rest : Plan} {L : ℤ} {iw : Bool} {tf : ℚ}
    (hL : reg.lookup track = some L)
    (hsum : ((((c, n) :: rest) : Plan).map Prod.snd).sum = L)
    (hw : decide ((3 : ℚ) / 10 < w.rain_prob) = iw)
    (htf : 1 + max 0 ((w.track_temp - 30) / 100) = tf)
    (hse : stintEntry (resolvedTeam deg track team)
      (if iw ∧ c ≠ Compound.INTERMEDIATE then Compound.INTERMEDIATE else c) =
        none) :
    simulate_strategy deg pit reg track team w ((c, n) :: rest) =
      (.error .keyError, (resolveTrackData deg track team).2) := by
  rw [simulate_run hL hsum hw htf]
  rw [runStints_cons_err rest (simStint_none tf pit n initState hse)]

/-- C5 counterexample: a registered track (Monza, 53 laps) with the team
present but holding only an INTERMEDIATE entry.  Every candidate opens on
SOFT or MEDIUM, so dry simulation raises KeyError for all six, and the
MEDIUM one-stop fallback raises as well: `optimize_strategy` propagates the
exception instead of returning a strategy. -/
theorem C5_counterexample :
    (optimize_strategy
      [("Monza", [("Ferrari", [(Compound.INTERMEDIATE, ⟨95, 1⟩)])])] 22
      [("Monza", 53)] "Monza" "Ferrari" ⟨30, 0⟩).1 = .error .keyError := by
  have h1 : simulate_strategy
      [("Monza", [("Ferrari", [(Compound.INTERMEDIATE, ⟨95, 1⟩)])])] 22
      [("Monza", 53)] "Monza" "Ferrari" ⟨30, 0⟩
      [(Compound.SOFT, s1 53), (Compound.HARD, 53 - s1 53)] =
      (.error .keyError,
       [("Monza", [("Ferrari", [(Compound.INTERMEDIATE, ⟨95, 1⟩)])])]) := by
    rw [@simulate_first_stint_fails
      [("Monza", [("Ferrari", [(Compound.INTERMEDIATE, ⟨95, 1⟩)])])] 22
      [("Monza", 53)] "Monza" "Ferrari" ⟨30, 0⟩ Compound.SOFT (s1 53)
      [(Compound.HARD, 53 - s1 53)] 53 false 1 rfl
      (by simp only [List.map_cons, List.map_nil, List.sum_cons,
            List.sum_nil]; ring)
      (by norm_num) (by norm_num) rfl]
    rw [@resolveTrackData_team_present
      [("Monza", [("Ferrari", [(Compound.INTERMEDIATE, ⟨95, 1⟩)])])]
      "Monza" "Ferrari" [("Ferrari", [(Compound.INTERMEDIATE, ⟨95, 1⟩)])]
      rfl rfl]
  have h2 : simulate_strategy
      [("Monza", [("Ferrari", [(Compound.INTERMEDIATE, ⟨95, 1⟩)])])] 22
      [("Monza", 53)] "Monza" "Ferrari" ⟨30, 0⟩
      [(Compound.MEDIUM, s2 53), (Compound.HARD, 53 - s2 53)] =
      (.error .keyError,
       [("Monza", [("Ferrari", [(Compound.INTERMEDIATE, ⟨95, 1⟩)])])]) := by
    rw [@simulate_first_stint_fails
      [("Monza", [("Ferrari", [(Compound.INTERMEDIATE, ⟨95, 1⟩)])])] 22
      [("Monza", 53)] "Monza" "Ferrari" ⟨30, 0⟩ Compound.MEDIUM (s2 53)
      [(Compound.HARD, 53 - s2 53)] 53 false 1 rfl
      (by simp only [List.map_cons, List.map_nil, List.sum_cons,
            List.sum_nil]; ring)
      (by norm_num) (by norm_num) rfl]
    rw [@resolveTrackData_team_present
      [("Monza", [("Ferrari", [(Compound.INTERMEDIATE, ⟨95, 1⟩)])])]
      "Monza" "Ferrari" [("Ferrari", [(Compound.INTERMEDIATE, ⟨95, 1⟩)])]
      rfl rfl]
  have h3 : simulate_strategy
      [("Monza", [("Ferrari", [(Compound.INTERMEDIATE, ⟨95, 1⟩)])])] 22
      [("Monza", 53)] "Monza" "Ferrari" ⟨30, 0⟩
      [(Compound.SOFT, s3 53), (Compound.MEDIUM, s4 53),
       (Compound.HARD, s5 53)] =
      (.error .keyError,
       [("Monza", [("Ferrari", [(Compound.INTERMEDIATE, ⟨95, 1⟩)])])]) := by
    rw [@simulate_first_stint_fails
      [("Monza", [("Ferrari", [(Compound.INTERMEDIATE, ⟨95, 1⟩)])])] 22
      [("Monza", 53)] "Monza" "Ferrari" ⟨30, 0⟩ Compound.SOFT (s3 53)
      [(Compound.MEDIUM, s4 53), (Compound.HARD, s5 53)] 53 false 1 rfl
      (by simp only [List.map_cons, List.map_nil, List.sum_cons,
            List.sum_nil, s5]; ring)
      (by norm_num) (by norm_num) rfl]
    rw [@resolveTrackData_team_present
      [("Monza", [("Ferrari", [(Compound.INTERMEDIATE, ⟨95, 1⟩)])])]
      "Monza" "Ferrari" [("Ferrari", [(Compound.INTERMEDIATE, ⟨95, 1⟩)])]
      rfl rfl]
  have h4 : simulate_strategy
      [("Monza", [("Ferrari", [(Compound.INTERMEDIATE, ⟨95, 1⟩)])])] 22
      [("Monza", 53)] "Monza" "Ferrari" ⟨30, 0⟩
      [(Compound.SOFT, s6 53), (Compound.HARD, s7 53),
       (Compound.HARD, s8 53)] =
      (.error .keyError,
       [("Monza", [("Ferrari", [(Compound.INTERMEDIATE, ⟨95, 1⟩)])])]) := by
    rw [@simulate_first_stint_fails
      [("Monza", [("Ferrari", [(Compound.INTERMEDIATE, ⟨95, 1⟩)])])] 22
      [("Monza", 53)] "Monza" "Ferrari" ⟨30, 0⟩ Compound.SOFT (s6 53)
      [(Compound.HARD, s7 53), (Compound.HARD, s8 53)] 53 false 1 rfl
      (by simp only [List.map_cons, List.map_nil, List.sum_cons,
            List.sum_nil, s8]; ring)
      (by norm_num) (by norm_num) rfl]
    rw [@resolveTrackData_team_present
      [("Monza", [("Ferrari", [(Compound.INTERMEDIATE, ⟨95, 1⟩)])])]
      "Monza" "Ferrari" [("Ferrari", [(Compound.INTERMEDIATE, ⟨95, 1⟩)])]
      rfl rfl]
  have h5 : simulate_strategy
      [("Monza", [("Ferrari", [(Compound.INTERMEDIATE, ⟨95, 1⟩)])])] 22
      [("Monza", 53)] "Monza" "Ferrari" ⟨30, 0⟩
      [(Compound.MEDIUM, s9 53), (Compound.SOFT, s10 53),
       (Compound.HARD, s11 53)] =
      (.error .keyError,
       [("Monza", [("Ferrari", [(Compound.INTERMEDIATE, ⟨95, 1⟩)])])]) := by
    rw [@simulate_first_stint_fails
      [("Monza", [("Ferrari", [(Compound.INTERMEDIATE, ⟨95, 1⟩)])])] 22
      [("Monza", 53)] "Monza" "Ferrari" ⟨30, 0⟩ Compound.MEDIUM (s9 53)
      [(Compound.SOFT, s10 53), (Compound.HARD, s11 53)] 53 false 1 rfl
      (by simp only [List.map_cons, List.map_nil, List.sum_cons,
            List.sum_nil, s11]; ring)
      (by norm_num) (by norm_num) rfl]
    rw [@resolveTrackData_team_present
      [("Monza", [("Ferrari", [(Compound.INTERMEDIATE, ⟨95, 1⟩)])])]
      "Monza" "Ferrari" [("Ferrari", [(Compound.INTERMEDIATE, ⟨95, 1⟩)])]
      rfl rfl]
  have h6 : simulate_strategy
      [("Monza", [("Ferrari", [(Compound.INTERMEDIATE, ⟨95, 1⟩)])])] 22
      [("Monza", 53)] "Monza" "Ferrari" ⟨30, 0⟩
      [(Compound.SOFT, s12 53), (Compound.SOFT, s13 53),
       (Compound.HARD, s14 53)] =
      (.error .keyError,
       [("Monza", [("Ferrari", [(Compound.INTERMEDIATE, ⟨95, 1⟩)])])]) := by
    rw [@simulate_first_stint_fails
      [("Monza", [("Ferrari", [(Compound.INTERMEDIATE, ⟨95, 1⟩)])])] 22
      [("Monza", 53)] "Monza" "Ferrari" ⟨30, 0⟩ Compound.SOFT (s12 53)
      [(Compound.SOFT, s13 53), (Compound.HARD, s14 53)] 53 false 1 rfl
      (by simp only [List.map_cons, List.map_nil, List.sum_cons,
            List.sum_nil, s14]; ring)
      (by norm_num) (by norm_num) rfl]
    rw [@resolveTrackData_team_present
      [("Monza", [("Ferrari", [(Compound.INTERMEDIATE, ⟨95, 1⟩)])])]
      "Monza" "Ferrari" [("Ferrari", [(Compound.INTERMEDIATE, ⟨95, 1⟩)])]
      rfl rfl]
  have h7 : simulate_strategy
      [("Monza", [("Ferrari", [(Compound.INTERMEDIATE, ⟨95, 1⟩)])])] 22
      [("Monza", 53)] "Monza" "Ferrari" ⟨30, 0⟩ [(Compound.MEDIUM, 53)] =
      (.error .keyError,
       [("Monza", [("Ferrari", [(Compound.INTERMEDIATE, ⟨95, 1⟩)])])]) := by
    rw [@simulate_first_stint_fails
      [("Monza", [("Ferrari", [(Compound.INTERMEDIATE, ⟨95, 1⟩)])])] 22
      [("Monza", 53)] "Monza" "Ferrari" ⟨30, 0⟩ Compound.MEDIUM 53 [] 53
      false 1 rfl (by simp) (by norm_num) (by norm_num) rfl]
    rw [@resolveTrackData_team_present
      [("Monza", [("Ferrari", [(Compound.INTERMEDIATE, ⟨95, 1⟩)])])]
      "Monza" "Ferrari" [("Ferrari", [(Compound.INTERMEDIATE, ⟨95, 1⟩)])]
      rfl rfl]
  have hstep1 : optStep 22 [("Monza", 53)] "Monza" "Ferrari" ⟨30, 0⟩
      (none, [("Monza", [("Ferrari", [(Compound.INTERMEDIATE, ⟨95, 1⟩)])])])
      [(Compound.SOFT, s1 53), (Compound.HARD, 53 - s1 53)] =
      (none,
       [("Monza", [("Ferrari", [(Compound.INTERMEDIATE, ⟨95, 1⟩)])])]) := by
    unfold optStep
    rw [h1]
  have hstep2 : optStep 22 [("Monza", 53)] "Monza" "Ferrari" ⟨30, 0⟩
      (none, [("Monza", [("Ferrari", [(Compound.INTERMEDIATE, ⟨95, 1⟩)])])])
      [(Compound.MEDIUM, s2 53), (Compound.HARD, 53 - s2 53)] =
      (none,
       [("Monza", [("Ferrari", [(Compound.INTERMEDIATE, ⟨95, 1⟩)])])]) := by
    unfold optStep
    rw [h2]
  have hstep3 : optStep 22 [("Monza", 53)] "Monza" "Ferrari" ⟨30, 0⟩
      (none, [("Monza", [("Ferrari", [(Compound.INTERMEDIATE, ⟨95, 1⟩)])])])
      [(Compound.SOFT, s3 53), (Compound.MEDIUM, s4 53),
       (Compound.HARD, s5 53)] =
      (none,
       [("Monza", [("Ferrari", [(Compound.INTERMEDIATE, ⟨95, 1⟩)])])]) := by
    unfold optStep
    rw [h3]
  have hstep4 : optStep 22 [("Monza", 53)] "Monza" "Ferrari" ⟨30, 0⟩
      (none, [("Monza", [("Ferrari", [(Compound.INTERMEDIATE, ⟨95, 1⟩)])])])
      [(Compound.SOFT, s6 53), (Compound.HARD, s7 53),
       (Compound.HARD, s8 53)] =
      (none,
       [("Monza", [("Ferrari", [(Compound.INTERMEDIATE, ⟨95, 1⟩)])])]) := by
    unfold optStep
    rw [h4]
  have hstep5 : optStep 22 [("Monza", 53)] "Monza" "Ferrari" ⟨30, 0⟩
      (none, [("Monza", [("Ferrari", [(Compound.INTERMEDIATE, ⟨95, 1⟩)])])])
      [(Compound.MEDIUM, s9 53), (Compound.SOFT, s10 53),
       (Compound.HARD, s11 53)] =
      (none,
       [("Monza", [("Ferrari", [(Compound.INTERMEDIATE, ⟨95, 1⟩)])])]) := by
    unfold optStep
    rw [h5]
  have hstep6 : optStep 22 [("Monza", 53)] "Monza" "Ferrari" ⟨30, 0⟩
      (none, [("Monza", [("Ferrari", [(Compound.INTERMEDIATE, ⟨95, 1⟩)])])])
      [(Compound.SOFT, s12 53), (Compound.SOFT, s13 53),
       (Compound.HARD, s14 53)] =
      (none,
       [("Monza", [("Ferrari", [(Compound.INTERMEDIATE, ⟨95, 1⟩)])])]) := by
    unfold optStep
    rw [h6]
  have hfold : (candidates 53).foldl
      (optStep 22 [("Monza", 53)] "Monza" "Ferrari" ⟨30, 0⟩)
      (none, [("Monza", [("Ferrari", [(Compound.INTERMEDIATE, ⟨95, 1⟩)])])]) =
      (none,
       [("Monza", [("Ferrari", [(Compound.INTERMEDIATE, ⟨95, 1⟩)])])]) := by
    rw [show candidates 53 =
      [ [(Compound.SOFT, s1 53), (Compound.HARD, 53 - s1 53)],
        [(Compound.MEDIUM, s2 53), (Compound.HARD, 53 - s2 53)],
        [(Compound.SOFT, s3 53), (Compound.MEDIUM, s4 53),
         (Compound.HARD, s5 53)],
        [(Compound.SOFT, s6 53), (Compound.HARD, s7 53),
         (Compound.HARD, s8 53)],
        [(Compound.MEDIUM, s9 53), (Compound.SOFT, s10 53),
         (Compound.HARD, s11 53)],
        [(Compound.SOFT, s12 53), (Compound.SOFT, s13 53),
         (Compound.HARD, s14 53)] ] from rfl]
    rw [List.foldl_cons, hstep1, List.foldl_cons, hstep2, List.foldl_cons,
      hstep3, List.foldl_cons, hstep4, List.foldl_cons, hstep5,
      List.foldl_cons, hstep6, List.foldl_nil]
  simp only [optimize_strategy,
    show List.lookup "Monza" [("Monza", (53 : ℤ))] = some 53 from rfl]
  rw [hfold]
  simp only [h7]
